import Mathlib

/-!
# WiFiNetworkHub: client handles, adapters and hub bring-up

A shallow embedding of `src/NetworkClient.h`, `src/EthernetNetworkHub.cpp` and
`src/WiFiNINANetworkHub.cpp`.

* Adapter objects (`NetworkClientWrapper` subclasses) live in an explicit heap; a pointer is a
  natural number, `0` is the null pointer, and `new` always hands out an address that was never
  used before.
* `NetworkClient` objects (the handles) are entries of a table; an entry holds the handle's
  `_clientWrapper` pointer, and is cleared when the handle is destroyed.
* The vendor client, server and stack objects are not part of the repository. They are taken as
  parameters: a native client is a value (the adapters store it by value) and each primitive is a
  function of that value that returns its result together with the updated value.
* Where the state that the vendor keeps outside the client object matters (a client value is a
  handle into the vendor's global stack), the primitives are taken as functions of the client
  value and of the stack (`StackClient`), and the forwarded calls thread the stack.
-/

namespace WiFiNetworkHub

/-! ## Data model -/

/-- An IPv4 address, given by its four octets. -/
structure IPAddress where
  o0 : Nat
  o1 : Nat
  o2 : Nat
  o3 : Nat
deriving DecidableEq, Repr

/-- The all-zero address `0.0.0.0`. -/
def IPAddress.zero : IPAddress := ⟨0, 0, 0, 0⟩

/-- The calls of the Arduino `Client` interface that `NetworkClient` forwards
(`NetworkClient.h`, lines 19-32). -/
inductive ClientCall
  | connectIP (ip : IPAddress) (port : Nat)
  | connectHost (host : String) (port : Nat)
  | writeByte (b : Nat)
  | writeBuf (buf : List Nat)
  | available
  | read
  | readBuf (size : Nat)
  | peek
  | flush
  | stop
  | connected
  | toBool
  | remoteIP
  | remotePort
deriving DecidableEq, Repr

/-- What a forwarded call returns: `int`, `size_t`, the `int` of `read(buf, size)` together with
the bytes put in the buffer, nothing, `uint8_t`, `bool`, an address, or a port. -/
inductive ClientReply
  | int (v : Int)
  | size (n : Nat)
  | bytes (v : Int) (data : List Nat)
  | void
  | uint8 (v : Nat)
  | bool (b : Bool)
  | ip (a : IPAddress)
  | port (p : Nat)
deriving DecidableEq, Repr

/-- The primitives of a vendor client class (`EthernetClient`, `WiFiClient`) over its values `C`.
The vendor classes are outside the repository; every primitive is a parameter. -/
structure NativeClient (C : Type) where
  /-- the default-constructed client value -/
  fresh : C
  connectIP : C → IPAddress → Nat → Int × C
  connectHost : C → String → Nat → Int × C
  writeByte : C → Nat → Nat × C
  writeBuf : C → List Nat → Nat × C
  available : C → Int × C
  read : C → Int × C
  readBuf : C → Nat → (Int × List Nat) × C
  peek : C → Int × C
  flush : C → C
  stop : C → C
  connected : C → Nat × C
  toBool : C → Bool × C
  remoteIP : C → IPAddress × C
  remotePort : C → Nat × C

/-- The primitives of a vendor server class (`EthernetServer`, `WiFiServer`) over its values `S`,
handing out client values `C`. Only `available` is modelled. -/
structure NativeServer (S C : Type) where
  available : S → C × S

/-- An adapter object: a `NullNetworkClientWrapper`, an `EthernetClientWrapper` with its
`_ethernetClient` member, or a `WiFiNINAClientWrapper` with its `_wifiClient` member. -/
inductive NetworkClientWrapper (E W : Type)
  | null
  | ethernet (_ethernetClient : E)
  | wifi (_wifiClient : W)
deriving DecidableEq, Repr

/-- The concrete adapter class of an adapter object. -/
inductive WrapperKind
  | null
  | ethernet
  | wifi
deriving DecidableEq, Repr

/-- The class of an adapter object. -/
def NetworkClientWrapper.kind {E W : Type} : NetworkClientWrapper E W → WrapperKind
  | .null => .null
  | .ethernet _ => .ethernet
  | .wifi _ => .wifi

/-- The one-to-one forwarding of a call to the vendor client held by value, as written in
`EthernetClientWrapper` (`EthernetNetworkHub.cpp`, lines 23-36) and in `WiFiNINAClientWrapper`
(`WiFiNINANetworkHub.cpp`, lines 29-44). -/
def forward {C : Type} (n : NativeClient C) : ClientCall → C → ClientReply × C
  | .connectIP ip port, c => let r := n.connectIP c ip port; (.int r.1, r.2)
  | .connectHost host port, c => let r := n.connectHost c host port; (.int r.1, r.2)
  | .writeByte b, c => let r := n.writeByte c b; (.size r.1, r.2)
  | .writeBuf buf, c => let r := n.writeBuf c buf; (.size r.1, r.2)
  | .available, c => let r := n.available c; (.int r.1, r.2)
  | .read, c => let r := n.read c; (.int r.1, r.2)
  | .readBuf size, c => let r := n.readBuf c size; (.bytes r.1.1 r.1.2, r.2)
  | .peek, c => let r := n.peek c; (.int r.1, r.2)
  | .flush, c => (.void, n.flush c)
  | .stop, c => (.void, n.stop c)
  | .connected, c => let r := n.connected c; (.uint8 r.1, r.2)
  | .toBool, c => let r := n.toBool c; (.bool (if r.1 then true else false), r.2)
  | .remoteIP, c => let r := n.remoteIP c; (.ip r.1, r.2)
  | .remotePort, c => let r := n.remotePort c; (.port r.1, r.2)

/-- Modelled from the spec: `NullNetworkClientWrapper` is declared in `NetworkClientWrapper.h`,
which is not among the sources. Per the spec every operation of the Null Adapter is a safe no-op
returning an empty, zero or false result, a read with nothing available returns "none" (the
`int` value `-1` of the Arduino `Client` interface), and `isUsable()` is always false. -/
def NullNetworkClientWrapper.call : ClientCall → ClientReply
  | .connectIP _ _ => .int 0
  | .connectHost _ _ => .int 0
  | .writeByte _ => .size 0
  | .writeBuf _ => .size 0
  | .available => .int 0
  | .read => .int (-1)
  | .readBuf _ => .bytes (-1) []
  | .peek => .int (-1)
  | .flush => .void
  | .stop => .void
  | .connected => .uint8 0
  | .toBool => .bool false
  | .remoteIP => .ip IPAddress.zero
  | .remotePort => .port 0

/-- Modelled from the spec: `NullNetworkClientWrapper::clone` is declared in
`NetworkClientWrapper.h`, which is not among the sources. Per the spec `clone()` gives a new
adapter instance with equivalent state, and the Null Adapter is stateless. -/
def NullNetworkClientWrapper.clone {E W : Type} : NetworkClientWrapper E W := .null

/-- The body of `WiFiNINAClientWrapper::clone` (`WiFiNINANetworkHub.cpp`, lines 46-48):
`new WiFiNINAClientWrapper(_wifiClient)`, whose constructor copies the client value into the new
object's member. Returns the object to allocate. -/
def WiFiNINAClientWrapper.clone {E W : Type} (_wifiClient : W) : NetworkClientWrapper E W :=
  .wifi _wifiClient

/-- Virtual dispatch of `clone()` on an adapter object: the object that the call allocates, or
`none` where the class has no `clone()`. `EthernetClientWrapper` (`EthernetNetworkHub.cpp`,
lines 21-48) declares no `clone()`; its constructors are private to that file, so no other class
can build its copy either. -/
def NetworkClientWrapper.clone {E W : Type} :
    NetworkClientWrapper E W → Option (NetworkClientWrapper E W)
  | .null => some NullNetworkClientWrapper.clone
  | .ethernet _ => none
  | .wifi c => some (WiFiNINAClientWrapper.clone c)

/-- Virtual dispatch of a forwarded call on an adapter object: the reply and the object after
the call. -/
def NetworkClientWrapper.call {E W : Type} (eth : NativeClient E) (wifi : NativeClient W)
    (k : ClientCall) : NetworkClientWrapper E W → ClientReply × NetworkClientWrapper E W
  | .null => (NullNetworkClientWrapper.call k, .null)
  | .ethernet c => let r := forward eth k c; (r.1, .ethernet r.2)
  | .wifi c => let r := forward wifi k c; (r.1, .wifi r.2)

/-- The program's memory: the heap of adapter objects (`none` marks a deleted object; the object
at address `p ≥ 1` is entry `p - 1`) and the table of `NetworkClient` objects (an entry is the
handle's `_clientWrapper`; `none` marks a destroyed handle). -/
structure Memory (E W : Type) where
  heap : List (Option (NetworkClientWrapper E W))
  clients : List (Option Nat)
deriving DecidableEq, Repr

namespace Memory

variable {E W : Type}

/-- The memory before anything is allocated. -/
def empty : Memory E W := ⟨[], []⟩

/-- The adapter object at address `p`, if `p` is not null and the object is allocated. -/
def deref (m : Memory E W) (p : Nat) : Option (NetworkClientWrapper E W) :=
  if p = 0 then none else (m.heap[p - 1]?).join

/-- The C++ `new`: allocates the object at an address never used before. -/
def alloc (m : Memory E W) (w : NetworkClientWrapper E W) : Nat × Memory E W :=
  (m.heap.length + 1, { m with heap := m.heap ++ [some w] })

/-- Writes the object at the non-null address `p`. -/
def store (m : Memory E W) (p : Nat) (w : NetworkClientWrapper E W) : Memory E W :=
  if p = 0 then m else { m with heap := m.heap.set (p - 1) (some w) }

/-- The C++ `delete` of the object at address `p`; deleting the null pointer does nothing. -/
def free (m : Memory E W) (p : Nat) : Memory E W :=
  if p = 0 then m else { m with heap := m.heap.set (p - 1) none }

/-- The `_clientWrapper` of handle `h`, if `h` is a live handle. -/
def wrapperOf (m : Memory E W) (h : Nat) : Option Nat :=
  (m.clients[h]?).join

/-- Sets the `_clientWrapper` entry of handle `h` (`none` marks the handle destroyed). -/
def setClient (m : Memory E W) (h : Nat) (v : Option Nat) : Memory E W :=
  { m with clients := m.clients.set h v }

/-- Adds a new `NetworkClient` object whose `_clientWrapper` is `p`; returns the handle. -/
def addClient (m : Memory E W) (p : Nat) : Nat × Memory E W :=
  (m.clients.length, { m with clients := m.clients ++ [some p] })

/-- Address `p` is allocated. -/
def allocated (m : Memory E W) (p : Nat) : Bool :=
  (m.deref p).isSome

/-- The live handles whose `_clientWrapper` is `p`. -/
def owners (m : Memory E W) (p : Nat) : List Nat :=
  (List.range m.clients.length).filter (fun h => decide (m.wrapperOf h = some p))

end Memory

/-! ## The client handle (`NetworkClient.h`) -/

namespace NetworkClient

variable {E W : Type}

/-- The default constructor (`NetworkClient.h`, lines 49-51):
`_clientWrapper = new NullNetworkClientWrapper();`. Returns the new handle and the memory. -/
def new (m : Memory E W) : Nat × Memory E W :=
  let a := m.alloc .null
  a.2.addClient a.1

/-- The private constructor (`NetworkClient.h`, lines 63-65): `_clientWrapper = clientWrapper;`.
Returns the new handle and the memory. -/
def ofWrapper (m : Memory E W) (clientWrapper : Nat) : Nat × Memory E W :=
  m.addClient clientWrapper

/-- The copy assignment `dst = src` (`NetworkClient.h`, lines 35-44): returns at once when
`this == &other`, else `_clientWrapper = other._clientWrapper->clone();`. It is `none` when a
handle is not live, when the source pointer does not point to an adapter, or when the adapter's
class has no `clone()`. -/
def assign (dst src : Nat) (m : Memory E W) : Option (Memory E W) :=
  match m.wrapperOf dst, m.wrapperOf src with
  | some _, some q =>
    if dst = src then some m
    else
      match m.deref q with
      | none => none
      | some w =>
        match w.clone with
        | none => none
        | some c =>
          let a := m.alloc c
          some (a.2.setClient dst (some a.1))
  | _, _ => none

/-- A forwarding member function (`NetworkClient.h`, lines 19-32): `_clientWrapper->f(...)`.
It is `none` when the handle is not live or its pointer does not point to an adapter. -/
def call (eth : NativeClient E) (wifi : NativeClient W) (k : ClientCall) (h : Nat)
    (m : Memory E W) : Option (ClientReply × Memory E W) :=
  match m.wrapperOf h with
  | none => none
  | some p =>
    match m.deref p with
    | none => none
    | some w =>
      let r := w.call eth wifi k
      some (r.1, m.store p r.2)

/-- The member `uint8_t connected()` (line 29). -/
def connected (eth : NativeClient E) (wifi : NativeClient W) (h : Nat) (m : Memory E W) :
    Option (ClientReply × Memory E W) :=
  call eth wifi .connected h m

/-- The member `void stop()` (line 28). -/
def stop (eth : NativeClient E) (wifi : NativeClient W) (h : Nat) (m : Memory E W) :
    Option (ClientReply × Memory E W) :=
  call eth wifi .stop h m

/-- The member `operator bool()` (line 30): `*_clientWrapper ? true : false`. -/
def toBool (eth : NativeClient E) (wifi : NativeClient W) (h : Nat) (m : Memory E W) :
    Option (ClientReply × Memory E W) :=
  call eth wifi .toBool h m

end NetworkClient

/-- Modelled from the spec: `NetworkFactory::createNetworkClient` is declared in
`NetworkFactory.h`, which is not among the sources. Per the spec it takes ownership of the
already heap-allocated adapter and transfers that ownership into the handle it returns; it is
the friend that may call the private constructor of `NetworkClient`. -/
def NetworkFactory.createNetworkClient {E W : Type} (m : Memory E W) (clientWrapper : Nat) :
    Nat × Memory E W :=
  NetworkClient.ofWrapper m clientWrapper

/-- The function `EthernetNetworkHub::getClient` (`EthernetNetworkHub.cpp`, lines 146-150):
`new EthernetClientWrapper()` handed to the factory. -/
def EthernetNetworkHub.getClient {E W : Type} (eth : NativeClient E) (m : Memory E W) :
    Nat × Memory E W :=
  let a := m.alloc (.ethernet eth.fresh)
  NetworkFactory.createNetworkClient a.2 a.1

/-- The function `WiFiNINANetworkHub::getClient` (`WiFiNINANetworkHub.cpp`, lines 199-205):
`WiFiClient client; new WiFiNINAClientWrapper(client)` handed to the factory. -/
def WiFiNINANetworkHub.getClient {E W : Type} (wifi : NativeClient W) (m : Memory E W) :
    Nat × Memory E W :=
  let a := m.alloc (.wifi wifi.fresh)
  NetworkFactory.createNetworkClient a.2 a.1

/-- The function `EthernetServerWrapper::available` (`EthernetNetworkHub.cpp`, lines 54-60):
the client value returned by `_ethernetServer.available()` is put in a new
`EthernetClientWrapper`, which is handed to the factory. Returns the handle, the server value
after the call, and the memory. -/
def EthernetServerWrapper.available {E W S : Type} (srv : NativeServer S E) (_ethernetServer : S)
    (m : Memory E W) : (Nat × S) × Memory E W :=
  let r := srv.available _ethernetServer
  let a := m.alloc (.ethernet r.1)
  let c := NetworkFactory.createNetworkClient a.2 a.1
  ((c.1, r.2), c.2)

/-- The function `WiFiNINAServerWrapper::available` (`WiFiNINANetworkHub.cpp`, lines 65-71):
the client value returned by `_wifiServer->available()` is put in a new
`WiFiNINAClientWrapper`, which is handed to the factory. Returns the handle, the server object
after the call, and the memory. -/
def WiFiNINAServerWrapper.available {E W S : Type} (srv : NativeServer S W) (_wifiServer : S)
    (m : Memory E W) : (Nat × S) × Memory E W :=
  let r := srv.available _wifiServer
  let a := m.alloc (.wifi r.1)
  let c := NetworkFactory.createNetworkClient a.2 a.1
  ((c.1, r.2), c.2)

/-! ## The client handle over the vendor's global stack -/

/-- The primitives of a vendor client class (`EthernetClient`, `WiFiClient`) whose values `C` are
handles into the vendor's global stack, over the states `G` of that stack: every primitive reads
the client value and the stack and returns its result with the client value and the stack after
the call. Copying a client value copies the handle and leaves the stack as it is. The vendor
classes are outside the repository; every primitive is a parameter. -/
structure StackClient (C G : Type) where
  connectIP : C → G → IPAddress → Nat → Int × C × G
  connectHost : C → G → String → Nat → Int × C × G
  writeByte : C → G → Nat → Nat × C × G
  writeBuf : C → G → List Nat → Nat × C × G
  available : C → G → Int × C × G
  read : C → G → Int × C × G
  readBuf : C → G → Nat → (Int × List Nat) × C × G
  peek : C → G → Int × C × G
  flush : C → G → C × G
  stop : C → G → C × G
  connected : C → G → Nat × C × G
  toBool : C → G → Bool × C × G
  remoteIP : C → G → IPAddress × C × G
  remotePort : C → G → Nat × C × G

/-- A vendor client whose primitives depend on the client value alone, seen as one over a
stack that no primitive reads or changes. -/
def NativeClient.onStack {C G : Type} (n : NativeClient C) : StackClient C G where
  connectIP c g ip port := ((n.connectIP c ip port).1, (n.connectIP c ip port).2, g)
  connectHost c g host port := ((n.connectHost c host port).1, (n.connectHost c host port).2, g)
  writeByte c g b := ((n.writeByte c b).1, (n.writeByte c b).2, g)
  writeBuf c g buf := ((n.writeBuf c buf).1, (n.writeBuf c buf).2, g)
  available c g := ((n.available c).1, (n.available c).2, g)
  read c g := ((n.read c).1, (n.read c).2, g)
  readBuf c g size := ((n.readBuf c size).1, (n.readBuf c size).2, g)
  peek c g := ((n.peek c).1, (n.peek c).2, g)
  flush c g := (n.flush c, g)
  stop c g := (n.stop c, g)
  connected c g := ((n.connected c).1, (n.connected c).2, g)
  toBool c g := ((n.toBool c).1, (n.toBool c).2, g)
  remoteIP c g := ((n.remoteIP c).1, (n.remoteIP c).2, g)
  remotePort c g := ((n.remotePort c).1, (n.remotePort c).2, g)

/-- The one-to-one forwarding of a call to the vendor client held by value, as written in
`EthernetClientWrapper` (`EthernetNetworkHub.cpp`, lines 23-36) and in `WiFiNINAClientWrapper`
(`WiFiNINANetworkHub.cpp`, lines 29-44), with the vendor stack threaded through the call. -/
def forwardOnStack {C G : Type} (n : StackClient C G) :
    ClientCall → C → G → ClientReply × C × G
  | .connectIP ip port, c, g => let r := n.connectIP c g ip port; (.int r.1, r.2)
  | .connectHost host port, c, g => let r := n.connectHost c g host port; (.int r.1, r.2)
  | .writeByte b, c, g => let r := n.writeByte c g b; (.size r.1, r.2)
  | .writeBuf buf, c, g => let r := n.writeBuf c g buf; (.size r.1, r.2)
  | .available, c, g => let r := n.available c g; (.int r.1, r.2)
  | .read, c, g => let r := n.read c g; (.int r.1, r.2)
  | .readBuf size, c, g => let r := n.readBuf c g size; (.bytes r.1.1 r.1.2, r.2)
  | .peek, c, g => let r := n.peek c g; (.int r.1, r.2)
  | .flush, c, g => (.void, n.flush c g)
  | .stop, c, g => (.void, n.stop c g)
  | .connected, c, g => let r := n.connected c g; (.uint8 r.1, r.2)
  | .toBool, c, g => let r := n.toBool c g; (.bool (if r.1 then true else false), r.2)
  | .remoteIP, c, g => let r := n.remoteIP c g; (.ip r.1, r.2)
  | .remotePort, c, g => let r := n.remotePort c g; (.port r.1, r.2)

/-- Virtual dispatch of a forwarded call on an adapter object, with the vendor stack threaded:
the reply, the object after the call and the stack after the call. The Null Adapter has no
vendor client and leaves the stack as it is. -/
def NetworkClientWrapper.callOnStack {E W G : Type} (eth : StackClient E G)
    (wifi : StackClient W G) (k : ClientCall) :
    NetworkClientWrapper E W → G → ClientReply × NetworkClientWrapper E W × G
  | .null, g => (NullNetworkClientWrapper.call k, .null, g)
  | .ethernet c, g => let r := forwardOnStack eth k c g; (r.1, .ethernet r.2.1, r.2.2)
  | .wifi c, g => let r := forwardOnStack wifi k c g; (r.1, .wifi r.2.1, r.2.2)

/-- A forwarding member function of `NetworkClient` (`NetworkClient.h`, lines 19-32):
`_clientWrapper->f(...)`, with the vendor stack threaded. It is `none` when the handle is not
live or its pointer does not point to an adapter. -/
def NetworkClient.callOnStack {E W G : Type} (eth : StackClient E G) (wifi : StackClient W G)
    (k : ClientCall) (h : Nat) (m : Memory E W) (g : G) :
    Option (ClientReply × Memory E W × G) :=
  match m.wrapperOf h with
  | none => none
  | some p =>
    match m.deref p with
    | none => none
    | some w =>
      let r := w.callOnStack eth wifi k g
      some (r.1, m.store p r.2.1, r.2.2)

/-- The member `uint8_t connected()` (`NetworkClient.h`, line 29), with the vendor stack
threaded. -/
def NetworkClient.connectedOnStack {E W G : Type} (eth : StackClient E G)
    (wifi : StackClient W G) (h : Nat) (m : Memory E W) (g : G) :
    Option (ClientReply × Memory E W × G) :=
  NetworkClient.callOnStack eth wifi .connected h m g

/-- The member `void stop()` (`NetworkClient.h`, line 28), with the vendor stack threaded. -/
def NetworkClient.stopOnStack {E W G : Type} (eth : StackClient E G) (wifi : StackClient W G)
    (h : Nat) (m : Memory E W) (g : G) : Option (ClientReply × Memory E W × G) :=
  NetworkClient.callOnStack eth wifi .stop h m g

/-! ## Hub bring-up (`EthernetNetworkHub::begin`, `WiFiNINANetworkHub::begin`) -/

/-- What is written to the `Print* printer`: `print(text)`, `println(text)` and
`println(address)`. -/
inductive Printed
  | text (s : String)
  | line (s : String)
  | address (a : IPAddress)
deriving DecidableEq, Repr

/-- Modelled from the spec: the configuration members of a hub object and their accessors
(`hasConfiguredLocalIPAddress()`, `getConfiguredLocalIPAddress()`, `getConfiguredDNSIPAddress()`,
`getConfiguredGatewayIPAddress()`, `getConfiguredSubnetMask()`) are declared in the hub headers,
which are not among the sources. Per the spec the hub's only persistent state is its transport
configuration: whether a fixed local address is configured, and the local, DNS, gateway and
subnet addresses, read through read-only accessors. -/
structure NetworkHub where
  hasConfiguredLocalIPAddress : Bool
  configuredLocalIPAddress : IPAddress
  configuredDNSIPAddress : IPAddress
  configuredGatewayIPAddress : IPAddress
  configuredSubnetMask : IPAddress
deriving DecidableEq, Repr

/-- The values of the vendor's hardware status, as named in `EthernetNetworkHub::printStatus`. -/
inductive EthernetHardwareStatus
  | EthernetNoHardware
  | EthernetW5100
  | EthernetW5200
  | EthernetW5500
deriving DecidableEq, Repr

/-- The values of the vendor's link status, as named in `EthernetNetworkHub::printStatus`. -/
inductive EthernetLinkStatus
  | Unknown
  | LinkON
  | LinkOFF
deriving DecidableEq, Repr

/-- The vendor's global `Ethernet` object over the states `G` of the vendor stack. It is outside
the repository; every primitive is a parameter that returns its result with the next state. -/
structure EthernetClass (G : Type) where
  /-- the call `Ethernet.begin(mac)`, which returns an `int` status -/
  beginDHCP : G → List Nat → Int × G
  /-- the call `Ethernet.begin(mac, ip, dns, gateway, subnet)` -/
  beginStatic : G → List Nat → IPAddress → IPAddress → IPAddress → IPAddress → G
  hardwareStatus : G → EthernetHardwareStatus × G
  linkStatus : G → EthernetLinkStatus × G
  localIP : G → IPAddress × G

/-- The running state of a `begin()`: the vendor stack, what has been printed, and the local
`hadError`. -/
structure BringUp (G : Type) where
  stack : G
  printed : List Printed
  hadError : Bool

/-- What a `begin()` leaves behind: the returned `bool`, the hub object, the vendor stack and
what has been printed. -/
structure BeginResult (G : Type) where
  success : Bool
  hub : NetworkHub
  stack : G
  printed : List Printed

namespace EthernetNetworkHub

variable {G : Type}

/-- The first block of `EthernetNetworkHub::begin` (`EthernetNetworkHub.cpp`, lines 111-126):
`hadError = false`, then the static or the DHCP start of the connection. -/
def startConnection (eth : EthernetClass G) (hub : NetworkHub) (macAddress : List Nat) (g : G)
    (printer : List Printed) : BringUp G :=
  if hub.hasConfiguredLocalIPAddress then
    { stack := eth.beginStatic g macAddress hub.configuredLocalIPAddress
        hub.configuredDNSIPAddress hub.configuredGatewayIPAddress hub.configuredSubnetMask
      printed := printer ++
        [.text "Connecting with ip address ", .address hub.configuredLocalIPAddress]
      hadError := false }
  else
    let status := eth.beginDHCP g macAddress
    if status.1 = 0 then
      { stack := status.2
        printed := printer ++ [.line "Connecting with ip address from DHCP",
          .line "Failed to configure Ethernet using DHCP"]
        hadError := true }
    else
      { stack := status.2
        printed := printer ++ [.line "Connecting with ip address from DHCP"]
        hadError := false }

/-- The hardware check of `EthernetNetworkHub::begin` (lines 128-132). -/
def checkHardware (eth : EthernetClass G) (b : BringUp G) : BringUp G :=
  let hw := eth.hardwareStatus b.stack
  if hw.1 = .EthernetNoHardware then
    { stack := hw.2
      printed := b.printed ++ [.line "Ethernet hardware was not found."]
      hadError := true }
  else
    { b with stack := hw.2 }

/-- The link check of `EthernetNetworkHub::begin` (lines 134-137). -/
def checkLink (eth : EthernetClass G) (b : BringUp G) : BringUp G :=
  let link := eth.linkStatus b.stack
  if link.1 = .LinkOFF then
    { stack := link.2
      printed := b.printed ++ [.line "Ethernet cable is not connected."]
      hadError := true }
  else
    { b with stack := link.2 }

/-- The function `EthernetNetworkHub::begin` (`EthernetNetworkHub.cpp`, lines 109-140); it
returns `!hadError` and assigns no member of the hub. -/
def begin (eth : EthernetClass G) (hub : NetworkHub) (macAddress : List Nat) (g : G)
    (printer : List Printed) : BeginResult G :=
  let b := checkLink eth (checkHardware eth (startConnection eth hub macAddress g printer))
  { success := !b.hadError, hub := hub, stack := b.stack, printed := b.printed }

/-- The function `EthernetNetworkHub::getLocalIPAddress` (lines 142-144):
`return Ethernet.localIP();`. -/
def getLocalIPAddress (eth : EthernetClass G) (g : G) : IPAddress × G :=
  eth.localIP g

end EthernetNetworkHub

/-- The vendor's global `WiFi` object over the states `G` of the vendor stack, with the status
codes the hub compares against and the Arduino `delay`. It is outside the repository; every
primitive and code is a parameter. -/
structure WiFiClass (G : Type) where
  WL_NO_MODULE : Int
  WL_IDLE_STATUS : Int
  WL_CONNECTED : Int
  firmwareVersion : G → String × G
  status : G → Int × G
  config : G → IPAddress → IPAddress → IPAddress → IPAddress → G
  /-- the call `WiFi.begin(ssid, password)`, which returns an `int` status -/
  begin : G → String → String → Int × G
  /-- the Arduino `delay(ms)`, during which the vendor stack may change -/
  delay : G → Nat → G

/-- The calls a `WiFiNINANetworkHub::begin` makes on the vendor `WiFi` object and on `delay`,
in order; an association attempt is recorded with the status it returned. -/
inductive WiFiCall
  | firmwareVersion
  | status
  | config (address dns gateway subnet : IPAddress)
  | begin (ssid password : String) (returned : Int)
  | delay (ms : Nat)
deriving DecidableEq, Repr

/-- The status returned by an association attempt; `none` for the other calls. -/
def WiFiCall.attempt : WiFiCall → Option Int
  | .begin _ _ returned => some returned
  | _ => none

/-- Whether the call is `WiFi.config`. -/
def WiFiCall.isConfig : WiFiCall → Bool
  | .config _ _ _ _ => true
  | _ => false

/-- What a `WiFiNINANetworkHub::begin` leaves behind: the returned `bool`, the hub object, the
vendor stack, what has been printed, and the record of the vendor calls made. -/
structure WiFiBeginResult (G : Type) where
  success : Bool
  hub : NetworkHub
  stack : G
  printed : List Printed
  calls : List WiFiCall

/-- The statuses returned by the association attempts of a `begin()`, in order. -/
def WiFiBeginResult.attempts {G : Type} (r : WiFiBeginResult G) : List Int :=
  r.calls.filterMap WiFiCall.attempt

namespace WiFiNINANetworkHub

variable {G : Type}

/-- The loop of `WiFiNINANetworkHub::begin` (`WiFiNINANetworkHub.cpp`, lines 169-188), entered
with the current `attemptsLeft` and `status`, and the two statements after it. -/
def connectLoop (wifi : WiFiClass G) (hub : NetworkHub) (ssid password : String)
    (attemptsLeft : Nat) (status : Int) (g : G) (printer : List Printed)
    (calls : List WiFiCall) : WiFiBeginResult G :=
  if status ≠ wifi.WL_CONNECTED then
    match attemptsLeft with
    | 0 =>
      { success := false, hub := hub, stack := g, calls := calls
        printed := printer ++
          [.line "All conection attempts exhausted, failed to connected to wifi"] }
    | left + 1 =>
      let r := wifi.begin g ssid password
      connectLoop wifi hub ssid password left r.1 (wifi.delay r.2 10000)
        (printer ++ [.text "Attempting to connect to SSID: ", .line ssid])
        (calls ++ [.begin ssid password r.1, .delay 10000])
  else
    { success := true, hub := hub, stack := g, calls := calls
      printed := printer ++ [.line "Connected to wifi"] }

/-- The function `WiFiNINANetworkHub::begin` (`WiFiNINANetworkHub.cpp`, lines 149-189); it
assigns no member of the hub. -/
def begin (wifi : WiFiClass G) (hub : NetworkHub) (ssid password : String) (g : G)
    (printer : List Printed) : WiFiBeginResult G :=
  let version := wifi.firmwareVersion g
  let printer1 := printer ++ [.text "Found firmware ", .line version.1]
  let st := wifi.status version.2
  if st.1 = wifi.WL_NO_MODULE then
    { success := false, hub := hub, stack := st.2, calls := [.firmwareVersion, .status]
      printed := printer1 ++ [.line "Communication with WiFi module failed!"] }
  else if hub.hasConfiguredLocalIPAddress then
    connectLoop wifi hub ssid password 3 wifi.WL_IDLE_STATUS
      (wifi.config st.2 hub.configuredLocalIPAddress hub.configuredDNSIPAddress
        hub.configuredGatewayIPAddress hub.configuredSubnetMask)
      printer1
      [.firmwareVersion, .status, .config hub.configuredLocalIPAddress
        hub.configuredDNSIPAddress hub.configuredGatewayIPAddress hub.configuredSubnetMask]
  else
    connectLoop wifi hub ssid password 3 wifi.WL_IDLE_STATUS st.2 printer1
      [.firmwareVersion, .status]

end WiFiNINANetworkHub

/-! ## Hub singletons (`EthernetNetworkHub::getInstance`, `WiFiNINANetworkHub::getInstance`) -/

/-- Modelled from the spec: `setHostIPAddress` is pure virtual in `NetworkHub.h` and its
implementations are in the hub headers, which are not among the sources. Per `NetworkHub.h` it
sets a fixed IP address for the host (otherwise the address comes from DHCP); per the spec the
hub then has a fixed local address configured. -/
def NetworkHub.setHostIPAddress (hub : NetworkHub) (hostIPAddress : IPAddress) : NetworkHub :=
  { hub with hasConfiguredLocalIPAddress := true, configuredLocalIPAddress := hostIPAddress }

/-- The two hub classes. -/
inductive HubClass
  | EthernetNetworkHub
  | WiFiNINANetworkHub
deriving DecidableEq, Repr

/-- How a hub object came to be: by a `new` expression, or as the object a function returns by
value (copy-constructed from the returned expression). -/
inductive HubStorage
  | heap
  | returned
deriving DecidableEq, Repr

/-- A hub object: its class, how it was created, and its members. -/
structure HubObject where
  cls : HubClass
  storage : HubStorage
  members : NetworkHub
deriving DecidableEq, Repr

/-- The hub objects of the program and the two static pointers
`EthernetNetworkHub::_ethernetNetworkHub` and `WiFiNINANetworkHub::_wifiNetworkHub`. The object
at address `p ≥ 1` is entry `p - 1`; `0` is `NULL`. No hub object is ever deleted. -/
structure HubMemory where
  objects : List HubObject
  _ethernetNetworkHub : Nat
  _wifiNetworkHub : Nat
deriving DecidableEq, Repr

namespace HubMemory

/-- The state at program start: no hub object, both static pointers `NULL`
(`EthernetNetworkHub.cpp`, line 233; `WiFiNINANetworkHub.cpp`, line 258). -/
def start : HubMemory := ⟨[], 0, 0⟩

/-- The hub object at address `p`, if `p` is not null and there is one. -/
def deref (m : HubMemory) (p : Nat) : Option HubObject :=
  if p = 0 then none else m.objects[p - 1]?

/-- Creates a hub object at an address never used before. -/
def add (m : HubMemory) (o : HubObject) : Nat × HubMemory :=
  (m.objects.length + 1, { m with objects := m.objects ++ [o] })

/-- A member function that changes the members of the hub object at address `p` by `f`. It is
`none` when there is no object at `p`. -/
def update (m : HubMemory) (p : Nat) (f : NetworkHub → NetworkHub) : Option HubMemory :=
  match m.deref p with
  | none => none
  | some o => some { m with objects := m.objects.set (p - 1) { o with members := f o.members } }

/-- The call `hub.setHostIPAddress(hostIPAddress)` on the hub object at address `p`. -/
def setHostIPAddress (m : HubMemory) (p : Nat) (hostIPAddress : IPAddress) :
    Option HubMemory :=
  m.update p (fun hub => hub.setHostIPAddress hostIPAddress)

/-- The number of hub objects of class `c` created by `new`. -/
def created (m : HubMemory) (c : HubClass) : Nat :=
  (m.objects.filter (fun o => decide (o.cls = c ∧ o.storage = HubStorage.heap))).length

end HubMemory

/-- The function `EthernetNetworkHub::getInstance` (`EthernetNetworkHub.cpp`, lines 236-241):
`if (_ethernetNetworkHub == NULL) _ethernetNetworkHub = new EthernetNetworkHub();` and then
`return *_ethernetNetworkHub;`. The return type is `EthernetNetworkHub`, not a reference, so the
caller receives a new object copy-constructed from the pointed-to one; its address is returned.
The members that the constructor `EthernetNetworkHub()` (in a header that is not among the
sources) gives a new hub are the parameter `fresh`. -/
def EthernetNetworkHub.getInstance (fresh : NetworkHub) (m : HubMemory) :
    Option (Nat × HubMemory) :=
  let m1 :=
    if m._ethernetNetworkHub = 0 then
      let a := m.add ⟨.EthernetNetworkHub, .heap, fresh⟩
      { a.2 with _ethernetNetworkHub := a.1 }
    else m
  match m1.deref m1._ethernetNetworkHub with
  | none => none
  | some o => some (m1.add { o with storage := .returned })

/-- The function `WiFiNINANetworkHub::getInstance` (`WiFiNINANetworkHub.cpp`, lines 261-266):
`if (_wifiNetworkHub == NULL) _wifiNetworkHub = new WiFiNINANetworkHub();` and then
`return *_wifiNetworkHub;`. The return type is `WiFiNINANetworkHub`, not a reference, so the
caller receives a new object copy-constructed from the pointed-to one; its address is returned.
The members that the constructor `WiFiNINANetworkHub()` (in a header that is not among the
sources) gives a new hub are the parameter `fresh`. -/
def WiFiNINANetworkHub.getInstance (fresh : NetworkHub) (m : HubMemory) :
    Option (Nat × HubMemory) :=
  let m1 :=
    if m._wifiNetworkHub = 0 then
      let a := m.add ⟨.WiFiNINANetworkHub, .heap, fresh⟩
      { a.2 with _wifiNetworkHub := a.1 }
    else m
  match m1.deref m1._wifiNetworkHub with
  | none => none
  | some o => some (m1.add { o with storage := .returned })

/-! ## Sample vendor objects, used to evaluate the definitions -/

/-- A sample vendor client value: a socket number (`255` when there is none) and whether the
connection is open. -/
structure SocketClient where
  sock : Nat
  isOpen : Bool
deriving DecidableEq, Repr

/-- Sample vendor client primitives over `SocketClient`. -/
def socketClient : NativeClient SocketClient where
  fresh := ⟨255, false⟩
  connectIP _ _ _ := (1, ⟨0, true⟩)
  connectHost _ _ _ := (1, ⟨0, true⟩)
  writeByte c _ := (if c.isOpen then 1 else 0, c)
  writeBuf c buf := (if c.isOpen then buf.length else 0, c)
  available c := (0, c)
  read c := (-1, c)
  readBuf c _ := ((-1, []), c)
  peek c := (-1, c)
  flush c := c
  stop _ := ⟨255, false⟩
  connected c := (if c.isOpen then 1 else 0, c)
  toBool c := (decide (c.sock ≠ 255), c)
  remoteIP c := (IPAddress.zero, c)
  remotePort c := (0, c)

/-- A sample vendor server value: the client values of the pending connections. -/
abbrev PendingServer := List SocketClient

/-- Sample vendor server primitives: `available` hands out the first pending client value, or
an empty client value when nothing is pending. -/
def pendingServer : NativeServer PendingServer SocketClient where
  available
    | [] => (⟨255, false⟩, [])
    | c :: rest => (c, rest)

/-- A sample state of the wired vendor stack: what the DHCP start, the hardware status, the link
status and the local address report. -/
structure WiredStack where
  dhcpStatus : Int
  hardware : EthernetHardwareStatus
  link : EthernetLinkStatus
  address : IPAddress
deriving DecidableEq, Repr

/-- Sample vendor `Ethernet` object over `WiredStack`; a DHCP start reports the recorded status,
and every later one reports `1`. -/
def wiredEthernet : EthernetClass WiredStack where
  beginDHCP g _ := (g.dhcpStatus, { g with dhcpStatus := 1 })
  beginStatic g _ ip _ _ _ := { g with address := ip }
  hardwareStatus g := (g.hardware, g)
  linkStatus g := (g.link, g)
  localIP g := (g.address, g)

/-- A sample hub with no static address configured. -/
def dhcpHub : NetworkHub :=
  ⟨false, IPAddress.zero, IPAddress.zero, IPAddress.zero, IPAddress.zero⟩

/-- A sample state of the wireless vendor stack: the module status and the statuses that the
coming association attempts will return. -/
structure RadioStack where
  moduleStatus : Int
  replies : List Int
deriving DecidableEq, Repr

/-- Sample vendor `WiFi` object over `RadioStack`, with the status codes `255`, `0` and `3`; an
association attempt returns the next reply, or `4` when there is none. -/
def radioWiFi : WiFiClass RadioStack where
  WL_NO_MODULE := 255
  WL_IDLE_STATUS := 0
  WL_CONNECTED := 3
  firmwareVersion g := ("1.0.0", g)
  status g := (g.moduleStatus, g)
  config g _ _ _ _ := g
  begin g _ _ :=
    match g.replies with
    | [] => (4, g)
    | r :: rest => (r, { g with replies := rest })
  delay g _ := g

/-- A sample memory: handle `0` owns a connected `WiFiNINAClientWrapper` at address `1`, handle
`1` owns a `NullNetworkClientWrapper` at address `2`. -/
def sampleMemory : Memory SocketClient SocketClient :=
  ⟨[some (.wifi ⟨0, true⟩), some .null], [some 1, some 2]⟩

/-- A sample memory: handle `0` owns a connected `EthernetClientWrapper` at address `1`, handle
`1` owns a `NullNetworkClientWrapper` at address `2`. -/
def sampleWiredMemory : Memory SocketClient SocketClient :=
  ⟨[some (.ethernet ⟨0, true⟩), some .null], [some 1, some 2]⟩

/-- Sample vendor client primitives over a socket table: a client value is a socket number
(`255` when there is none), the vendor stack is the list of the open sockets; `connected` reports
whether the socket of the client value is open, `stop` closes that socket and clears the
number in the client value it is called on. -/
def socketTable : StackClient Nat (List Nat) where
  connectIP c g _ _ := if c = 255 then (1, 0, 0 :: g) else (0, c, g)
  connectHost c g _ _ := if c = 255 then (1, 0, 0 :: g) else (0, c, g)
  writeByte c g _ := (if c ∈ g then 1 else 0, c, g)
  writeBuf c g buf := (if c ∈ g then buf.length else 0, c, g)
  available c g := (0, c, g)
  read c g := (-1, c, g)
  readBuf c g _ := ((-1, []), c, g)
  peek c g := (-1, c, g)
  flush c g := (c, g)
  stop c g := (255, g.filter (fun s => decide (s ≠ c)))
  connected c g := (if c ∈ g then 1 else 0, c, g)
  toBool c g := (decide (c ≠ 255), c, g)
  remoteIP c g := (IPAddress.zero, c, g)
  remotePort c g := (0, c, g)

/-- A sample memory over socket numbers: handle `0` owns a `WiFiNINAClientWrapper` at address
`1` whose client value is socket `0`, handle `1` owns a `NullNetworkClientWrapper` at address
`2`. -/
def socketMemory : Memory Nat Nat :=
  ⟨[some (.wifi 0), some .null], [some 1, some 2]⟩

/-! ## Ownership and reachable memories -/

/-- Exclusive ownership: every allocated adapter is the `_clientWrapper` of exactly one live
handle. -/
def Memory.ExclusivelyOwned {E W : Type} (m : Memory E W) : Prop :=
  ∀ p, m.allocated p = true → (m.owners p).length = 1

/-- Every live handle points to an allocated adapter (so its pointer is not null), and no
adapter is the `_clientWrapper` of two live handles. -/
def Memory.WellOwned {E W : Type} (m : Memory E W) : Prop :=
  (∀ h p, m.wrapperOf h = some p → (m.deref p).isSome = true) ∧
  (∀ h k p, m.wrapperOf h = some p → m.wrapperOf k = some p → h = k)

namespace Memory

variable {E W : Type}

theorem deref_bounds {m : Memory E W} {p : Nat} {w : NetworkClientWrapper E W}
    (h : m.deref p = some w) : 0 < p ∧ p ≤ m.heap.length := by
  unfold deref at h
  split at h
  · simp at h
  · constructor
    · omega
    · by_contra hlt
      have : m.heap[p - 1]? = none := List.getElem?_eq_none (by omega)
      simp [this] at h

theorem deref_alloc_of_le (m : Memory E W) (w : NetworkClientWrapper E W) {p : Nat}
    (hp : p ≤ m.heap.length) : (m.alloc w).2.deref p = m.deref p := by
  unfold deref alloc
  split
  · rfl
  · simp only []
    rw [List.getElem?_append_left (by omega)]

theorem deref_alloc_self (m : Memory E W) (w : NetworkClientWrapper E W) :
    (m.alloc w).2.deref (m.alloc w).1 = some w := by
  simp [deref, alloc]

theorem deref_store_ne (m : Memory E W) (w : NetworkClientWrapper E W) {p q : Nat}
    (hq : q ≠ p) : (m.store p w).deref q = m.deref q := by
  unfold store
  split
  · rfl
  · unfold deref
    split
    · rfl
    · simp only []
      rw [List.getElem?_set_ne (by omega)]

theorem deref_store_self (m : Memory E W) (w : NetworkClientWrapper E W) {p : Nat}
    (hp : 0 < p) (hl : p ≤ m.heap.length) : (m.store p w).deref p = some w := by
  unfold store deref
  rw [if_neg (by omega), if_neg (by omega)]
  simp only []
  rw [List.getElem?_set_self (by omega)]
  rfl

theorem deref_free_self (m : Memory E W) {p : Nat} (hp : 0 < p) :
    (m.free p).deref p = none := by
  unfold free deref
  rw [if_neg (by omega), if_neg (by omega)]
  simp only []
  by_cases hl : p ≤ m.heap.length
  · rw [List.getElem?_set_self (by omega)]
    rfl
  · rw [List.getElem?_eq_none (by simp; omega)]
    rfl

@[simp] theorem wrapperOf_alloc (m : Memory E W) (w : NetworkClientWrapper E W) (h : Nat) :
    (m.alloc w).2.wrapperOf h = m.wrapperOf h := rfl

@[simp] theorem wrapperOf_store (m : Memory E W) (w : NetworkClientWrapper E W) (p h : Nat) :
    (m.store p w).wrapperOf h = m.wrapperOf h := by
  unfold store
  split <;> rfl

@[simp] theorem deref_setClient (m : Memory E W) (h p : Nat) (v : Option Nat) :
    (m.setClient h v).deref p = m.deref p := rfl

@[simp] theorem deref_addClient (m : Memory E W) (q p : Nat) :
    (m.addClient q).2.deref p = m.deref p := rfl

theorem wrapperOf_setClient_ne (m : Memory E W) {h k : Nat} (v : Option Nat) (hk : k ≠ h) :
    (m.setClient h v).wrapperOf k = m.wrapperOf k := by
  unfold setClient wrapperOf
  simp only []
  rw [List.getElem?_set_ne (by omega)]

theorem wrapperOf_setClient_self (m : Memory E W) {h : Nat} (v : Option Nat)
    (hl : h < m.clients.length) : (m.setClient h v).wrapperOf h = v := by
  unfold setClient wrapperOf
  simp only []
  rw [List.getElem?_set_self hl]
  rfl

theorem wrapperOf_bounds {m : Memory E W} {h p : Nat} (hp : m.wrapperOf h = some p) :
    h < m.clients.length := by
  unfold wrapperOf at hp
  by_contra hlt
  have : m.clients[h]? = none := List.getElem?_eq_none (by omega)
  simp [this] at hp

theorem wrapperOf_addClient_of_lt (m : Memory E W) (q : Nat) {h : Nat}
    (hl : h < m.clients.length) : (m.addClient q).2.wrapperOf h = m.wrapperOf h := by
  unfold addClient wrapperOf
  simp only []
  rw [List.getElem?_append_left hl]

theorem wrapperOf_addClient_self (m : Memory E W) (q : Nat) :
    (m.addClient q).2.wrapperOf (m.addClient q).1 = some q := by
  simp [addClient, wrapperOf]

end Memory

/-! ## Lemmas on the handle operations -/

namespace NetworkClient

variable {E W : Type}

theorem call_of_deref (eth : NativeClient E) (wifi : NativeClient W) (k : ClientCall)
    {m : Memory E W} {h p : Nat} {w : NetworkClientWrapper E W}
    (hp : m.wrapperOf h = some p) (hw : m.deref p = some w) :
    call eth wifi k h m = some ((w.call eth wifi k).1, m.store p (w.call eth wifi k).2) := by
  simp [call, hp, hw]

theorem assign_of_clone {m : Memory E W} {dst src pd q : Nat} {w c : NetworkClientWrapper E W}
    (hne : dst ≠ src) (hd : m.wrapperOf dst = some pd) (hs : m.wrapperOf src = some q)
    (hw : m.deref q = some w) (hc : w.clone = some c) :
    assign dst src m = some ((m.alloc c).2.setClient dst (some (m.alloc c).1)) := by
  simp [assign, hd, hs, hne, hw, hc]

theorem assign_self {m : Memory E W} {h p : Nat} (hp : m.wrapperOf h = some p) :
    assign h h m = some m := by
  simp [assign, hp]

theorem assign_no_clone {m : Memory E W} {dst src pd q : Nat} {w : NetworkClientWrapper E W}
    (hne : dst ≠ src) (hd : m.wrapperOf dst = some pd) (hs : m.wrapperOf src = some q)
    (hw : m.deref q = some w) (hc : w.clone = none) :
    assign dst src m = none := by
  simp [assign, hd, hs, hne, hw, hc]

/-- The copy assignment between distinct handles, when it returns, has allocated the clone of
the source adapter at the next unused address and installed it in the destination. -/
theorem assign_inv {m m1 : Memory E W} {dst src : Nat} (hne : dst ≠ src)
    (h : assign dst src m = some m1) :
    ∃ pd q w c, m.wrapperOf dst = some pd ∧ m.wrapperOf src = some q ∧ m.deref q = some w ∧
      w.clone = some c ∧ m1 = (m.alloc c).2.setClient dst (some (m.alloc c).1) := by
  unfold assign at h
  split at h
  · rename_i pd q hd hs
    rw [if_neg hne] at h
    split at h
    · exact absurd h (by simp)
    · rename_i w hw
      split at h
      · exact absurd h (by simp)
      · rename_i c hc
        exact ⟨pd, q, w, c, hd, hs, hw, hc, (Option.some.inj h).symm⟩
  · exact absurd h (by simp)

end NetworkClient

/-! ## Clone independence (C1) -/

theorem forwardOnStack_onStack {C G : Type} (n : NativeClient C) (k : ClientCall) (c : C)
    (g : G) :
    forwardOnStack (n.onStack : StackClient C G) k c g
      = ((forward n k c).1, (forward n k c).2, g) := by
  cases k <;> rfl

/-- For a vendor whose primitives depend on the client value alone, the stack-threaded call is
the call on the value, with the stack left as it is. -/
theorem NetworkClient.callOnStack_onStack {E W G : Type} (eth : NativeClient E)
    (wifi : NativeClient W) (k : ClientCall) (h : Nat) (m : Memory E W) (g : G) :
    NetworkClient.callOnStack (eth.onStack : StackClient E G) wifi.onStack k h m g
      = (NetworkClient.call eth wifi k h m).map (fun r => (r.1, r.2, g)) := by
  cases hp : m.wrapperOf h with
  | none => simp [NetworkClient.callOnStack, NetworkClient.call, hp]
  | some p =>
    cases hw : m.deref p with
    | none => simp [NetworkClient.callOnStack, NetworkClient.call, hp, hw]
    | some w =>
      cases w with
      | null =>
        simp [NetworkClient.callOnStack, NetworkClient.call, hp, hw,
          NetworkClientWrapper.callOnStack, NetworkClientWrapper.call]
      | ethernet c =>
        simp [NetworkClient.callOnStack, NetworkClient.call, hp, hw,
          NetworkClientWrapper.callOnStack, NetworkClientWrapper.call, forwardOnStack_onStack]
      | wifi c =>
        simp [NetworkClient.callOnStack, NetworkClient.call, hp, hw,
          NetworkClientWrapper.callOnStack, NetworkClientWrapper.call, forwardOnStack_onStack]

theorem NetworkClient.callOnStack_of_deref {E W G : Type} (eth : StackClient E G)
    (wifi : StackClient W G) (k : ClientCall) {m : Memory E W} {h p : Nat}
    {w : NetworkClientWrapper E W} (g : G) (hp : m.wrapperOf h = some p)
    (hw : m.deref p = some w) :
    NetworkClient.callOnStack eth wifi k h m g
      = some ((w.callOnStack eth wifi k g).1, m.store p (w.callOnStack eth wifi k g).2.1,
          (w.callOnStack eth wifi k g).2.2) := by
  simp [NetworkClient.callOnStack, hp, hw]

/-- C1, as stated, fails on the sample socket-table vendor: handle `0` owns a
`WiFiNINAClientWrapper` whose client value is the open socket `0`. After `copy = h` (with `copy`
the handle `1`) the adapter of `h` at address `1` is as it was, and so it is after
`copy.stop()`; but the clone wraps the same socket number, `copy.stop()` closes that socket in
the vendor stack, and `h.connected()`, which was `1` before the disconnect of `copy`, is `0`
after it. -/
theorem NetworkClient.copy_stop_disconnects_source :
    ∃ m1 r m2 g2, NetworkClient.assign 1 0 socketMemory = some m1 ∧
      NetworkClient.stopOnStack socketTable socketTable 1 m1 [0] = some (r, m2, g2) ∧
      m1.deref 1 = some (NetworkClientWrapper.wifi 0) ∧
      m2.deref 1 = some (NetworkClientWrapper.wifi 0) ∧
      (NetworkClient.connectedOnStack socketTable socketTable 0 m1 [0]).map (fun x => x.1)
        = some (ClientReply.uint8 1) ∧
      (NetworkClient.connectedOnStack socketTable socketTable 0 m2 g2).map (fun x => x.1)
        = some (ClientReply.uint8 0) :=
  ⟨_, _, _, _, rfl, rfl, by decide, by decide, by decide, by decide⟩

/-- C1, amended: for every live handle `h` that owns a `WiFiNINAClientWrapper` wrapping the
client value `c`, every other live handle `copy` and every state `g` of the vendor stack, the
copy assignment `copy = h` followed by `copy.stop()` runs; the clone is a separate adapter
object, so `h` still owns its adapter at the same address, unchanged and wrapping `c`, and the
vendor stack afterwards is the one that the vendor's `stop` on the client value `c` leaves.
`h.connected()` returns before the disconnect what the vendor reports for `c` on the stack `g`,
and after it what the vendor reports for `c` on the stack that `stop` left: the two are equal
exactly when the vendor's two answers are. -/
theorem NetworkClient.copy_stop_keeps_source_adapter {E W G : Type} (eth : StackClient E G)
    (wifi : StackClient W G) (m : Memory E W) (g : G) (h copy p pc : Nat) (c : W)
    (hne : copy ≠ h) (hp : m.wrapperOf h = some p)
    (hw : m.deref p = some (NetworkClientWrapper.wifi c))
    (hc : m.wrapperOf copy = some pc) :
    ∃ m1 r m2,
      NetworkClient.assign copy h m = some m1 ∧
      NetworkClient.stopOnStack eth wifi copy m1 g = some (r, m2, (wifi.stop c g).2) ∧
      m1.wrapperOf copy = some (m.heap.length + 1) ∧ m.heap.length + 1 ≠ p ∧
      m1.deref (m.heap.length + 1) = some (NetworkClientWrapper.wifi c) ∧
      m1.wrapperOf h = some p ∧ m1.deref p = some (NetworkClientWrapper.wifi c) ∧
      m2.wrapperOf h = some p ∧ m2.deref p = some (NetworkClientWrapper.wifi c) ∧
      (NetworkClient.connectedOnStack eth wifi h m1 g).map (fun x => x.1)
        = some (ClientReply.uint8 (wifi.connected c g).1) ∧
      (NetworkClient.connectedOnStack eth wifi h m2 (wifi.stop c g).2).map (fun x => x.1)
        = some (ClientReply.uint8 (wifi.connected c (wifi.stop c g).2).1) ∧
      ((NetworkClient.connectedOnStack eth wifi h m2 (wifi.stop c g).2).map (fun x => x.1)
          = (NetworkClient.connectedOnStack eth wifi h m1 g).map (fun x => x.1) ↔
        (wifi.connected c (wifi.stop c g).2).1 = (wifi.connected c g).1) := by
  have hb := Memory.deref_bounds hw
  have ha := NetworkClient.assign_of_clone hne hc hp hw
    (c := NetworkClientWrapper.wifi c) rfl
  have hcl_lt : copy < (m.alloc (NetworkClientWrapper.wifi c)).2.clients.length :=
    Memory.wrapperOf_bounds hc
  have h1h : ((m.alloc (NetworkClientWrapper.wifi c)).2.setClient copy
      (some (m.alloc (NetworkClientWrapper.wifi c)).1)).wrapperOf h = some p := by
    rw [Memory.wrapperOf_setClient_ne _ _ (Ne.symm hne)]; simpa using hp
  have h1c : ((m.alloc (NetworkClientWrapper.wifi c)).2.setClient copy
      (some (m.alloc (NetworkClientWrapper.wifi c)).1)).wrapperOf copy
      = some (m.heap.length + 1) :=
    Memory.wrapperOf_setClient_self _ _ hcl_lt
  have h1p : ((m.alloc (NetworkClientWrapper.wifi c)).2.setClient copy
      (some (m.alloc (NetworkClientWrapper.wifi c)).1)).deref p
      = some (NetworkClientWrapper.wifi c) := by
    rw [Memory.deref_setClient, Memory.deref_alloc_of_le _ _ hb.2]; exact hw
  have h1n : ((m.alloc (NetworkClientWrapper.wifi c)).2.setClient copy
      (some (m.alloc (NetworkClientWrapper.wifi c)).1)).deref (m.heap.length + 1)
      = some (NetworkClientWrapper.wifi c) := by
    rw [Memory.deref_setClient]; exact Memory.deref_alloc_self m _
  have hs := NetworkClient.callOnStack_of_deref eth wifi ClientCall.stop g h1c h1n
  have hpn : p ≠ m.heap.length + 1 := by omega
  have h2h : (((m.alloc (NetworkClientWrapper.wifi c)).2.setClient copy
      (some (m.alloc (NetworkClientWrapper.wifi c)).1)).store (m.heap.length + 1)
      (NetworkClientWrapper.wifi (wifi.stop c g).1)).wrapperOf h = some p := by
    rw [Memory.wrapperOf_store]; exact h1h
  have h2p : (((m.alloc (NetworkClientWrapper.wifi c)).2.setClient copy
      (some (m.alloc (NetworkClientWrapper.wifi c)).1)).store (m.heap.length + 1)
      (NetworkClientWrapper.wifi (wifi.stop c g).1)).deref p
      = some (NetworkClientWrapper.wifi c) := by
    rw [Memory.deref_store_ne _ _ hpn]; exact h1p
  have before := NetworkClient.callOnStack_of_deref eth wifi ClientCall.connected g h1h h1p
  have after := NetworkClient.callOnStack_of_deref eth wifi ClientCall.connected
    (wifi.stop c g).2 h2h h2p
  have eb : (NetworkClient.connectedOnStack eth wifi h
      ((m.alloc (NetworkClientWrapper.wifi c)).2.setClient copy
        (some (m.alloc (NetworkClientWrapper.wifi c)).1)) g).map (fun x => x.1)
      = some (ClientReply.uint8 (wifi.connected c g).1) := by
    unfold NetworkClient.connectedOnStack
    rw [before]; rfl
  have ea : (NetworkClient.connectedOnStack eth wifi h
      (((m.alloc (NetworkClientWrapper.wifi c)).2.setClient copy
        (some (m.alloc (NetworkClientWrapper.wifi c)).1)).store (m.heap.length + 1)
        (NetworkClientWrapper.wifi (wifi.stop c g).1)) (wifi.stop c g).2).map (fun x => x.1)
      = some (ClientReply.uint8 (wifi.connected c (wifi.stop c g).2).1) := by
    unfold NetworkClient.connectedOnStack
    rw [after]; rfl
  have hiff : ((NetworkClient.connectedOnStack eth wifi h
      (((m.alloc (NetworkClientWrapper.wifi c)).2.setClient copy
        (some (m.alloc (NetworkClientWrapper.wifi c)).1)).store (m.heap.length + 1)
        (NetworkClientWrapper.wifi (wifi.stop c g).1)) (wifi.stop c g).2).map (fun x => x.1)
      = (NetworkClient.connectedOnStack eth wifi h
        ((m.alloc (NetworkClientWrapper.wifi c)).2.setClient copy
          (some (m.alloc (NetworkClientWrapper.wifi c)).1)) g).map (fun x => x.1) ↔
      (wifi.connected c (wifi.stop c g).2).1 = (wifi.connected c g).1) := by
    rw [ea, eb]
    constructor
    · intro e
      exact ClientReply.uint8.inj (Option.some.inj e)
    · intro e
      rw [e]
  exact ⟨_, _, _, ha, hs, h1c, by omega, h1n, h1h, h1p, h2h, h2p, eb, ea, hiff⟩

/-- Witness of the amended C1 on the sample socket-table vendor, with the sockets `0` and `7`
open: after `copy = h; copy.stop()` the adapter of `h` at address `1` still wraps socket `0`,
and the vendor stack has socket `7` alone open. -/
theorem NetworkClient.copy_stop_keeps_source_adapter_witness :
    ∃ m1 r m2,
      NetworkClient.assign 1 0 socketMemory = some m1 ∧
      NetworkClient.stopOnStack socketTable socketTable 1 m1 [0, 7] = some (r, m2, [7]) ∧
      m2.wrapperOf 0 = some 1 ∧ m2.deref 1 = some (NetworkClientWrapper.wifi 0) := by
  obtain ⟨m1, r, m2, e1, e2, _, _, _, _, _, e8, e9, _⟩ :=
    NetworkClient.copy_stop_keeps_source_adapter socketTable socketTable socketMemory [0, 7]
      0 1 1 2 0 (by decide) (by decide) (by decide) (by decide)
  exact ⟨m1, r, m2, e1, e2, e8, e9⟩

/-! ## What the copy assignment installs (C2) -/

/-- C2: the copy assignment `dst = src` between two distinct live handles, by the class of the
adapter `src` owns. For a `WiFiNINAClientWrapper` wrapping the client value `c`, `dst` afterwards
owns an adapter at an address that was not allocated before (so distinct from the address of the
adapter of `src`), that adapter is a `WiFiNINAClientWrapper` wrapping the same value `c`, and
`src` still owns its unchanged adapter. For an `EthernetClientWrapper` the assignment has no
`clone()` to call: the class declares none, and no adapter is produced. -/
theorem NetworkClient.assign_clone_by_transport {E W : Type} (m : Memory E W)
    (dst src pd q : Nat) (hne : dst ≠ src) (hd : m.wrapperOf dst = some pd)
    (hs : m.wrapperOf src = some q) :
    (∀ c, m.deref q = some (NetworkClientWrapper.wifi c) →
      ∃ m1, NetworkClient.assign dst src m = some m1 ∧
        m1.wrapperOf dst = some (m.heap.length + 1) ∧
        m.allocated (m.heap.length + 1) = false ∧
        m.heap.length + 1 ≠ q ∧
        m1.deref (m.heap.length + 1) = some (NetworkClientWrapper.wifi c) ∧
        m1.wrapperOf src = some q ∧
        m1.deref q = some (NetworkClientWrapper.wifi c)) ∧
    (∀ c, m.deref q = some (NetworkClientWrapper.ethernet c) →
      NetworkClient.assign dst src m = none) := by
  constructor
  · intro c hw
    have hb := Memory.deref_bounds hw
    have ha := NetworkClient.assign_of_clone hne hd hs hw (c := .wifi c) rfl
    refine ⟨_, ha, ?_, ?_, ?_, ?_, ?_, ?_⟩
    · exact Memory.wrapperOf_setClient_self _ _ (Memory.wrapperOf_bounds hd)
    · have hn : m.heap[m.heap.length]? = none := List.getElem?_eq_none (le_refl _)
      simp [Memory.allocated, Memory.deref, hn]
    · omega
    · rw [Memory.deref_setClient]
      exact Memory.deref_alloc_self m (.wifi c)
    · rw [Memory.wrapperOf_setClient_ne _ _ (Ne.symm hne)]
      simpa using hs
    · rw [Memory.deref_setClient, Memory.deref_alloc_of_le _ _ hb.2]
      exact hw
  · intro c hw
    exact NetworkClient.assign_no_clone hne hd hs hw rfl

/-- Witness of C2 on the sample memories: with an `EthernetClientWrapper` behind the source the
assignment produces nothing; with a `WiFiNINAClientWrapper` the destination owns a new
`WiFiNINAClientWrapper` at address `3` that wraps the same client value. -/
theorem NetworkClient.assign_clone_by_transport_witness :
    NetworkClient.assign 1 0 sampleWiredMemory = none ∧
    ∃ m1, NetworkClient.assign 1 0 sampleMemory = some m1 ∧
      m1.wrapperOf 1 = some 3 ∧
      m1.deref 3 = some (NetworkClientWrapper.wifi ⟨0, true⟩) ∧
      m1.deref 1 = some (NetworkClientWrapper.wifi ⟨0, true⟩) := by
  have TE := NetworkClient.assign_clone_by_transport sampleWiredMemory 1 0 2 1 (by decide)
    (by decide) (by decide)
  have TW := NetworkClient.assign_clone_by_transport sampleMemory 1 0 2 1 (by decide)
    (by decide) (by decide)
  refine ⟨TE.2 ⟨0, true⟩ (by decide), ?_⟩
  obtain ⟨m1, h1, h2, _, _, h5, _, h7⟩ := TW.1 ⟨0, true⟩ (by decide)
  exact ⟨m1, h1, h2, h5, h7⟩

/-! ## Ownership across the copy assignment (C3) -/

theorem Memory.mem_owners {E W : Type} (m : Memory E W) (p h : Nat) :
    h ∈ m.owners p ↔ m.wrapperOf h = some p := by
  unfold Memory.owners
  rw [List.mem_filter, List.mem_range, decide_eq_true_iff]
  constructor
  · exact fun hh => hh.2
  · exact fun hh => ⟨Memory.wrapperOf_bounds hh, hh⟩

theorem Memory.owner_unique {E W : Type} {m : Memory E W} {p h k : Nat}
    (hlen : (m.owners p).length = 1) (hh : m.wrapperOf h = some p)
    (hk : m.wrapperOf k = some p) : h = k := by
  obtain ⟨a, ha⟩ := List.length_eq_one.mp hlen
  have h1 : h ∈ m.owners p := (m.mem_owners p h).mpr hh
  have h2 : k ∈ m.owners p := (m.mem_owners p k).mpr hk
  rw [ha, List.mem_singleton] at h1 h2
  rw [h1, h2]

/-- C3: the copy assignment does not release the adapter the destination owned. From a memory in
which every allocated adapter has exactly one owner, `dst = src` between distinct handles leaves
the adapter that `dst` owned still allocated and owned by no handle, so the exclusive-ownership
invariant does not hold afterwards. -/
theorem NetworkClient.assign_leaves_previous_adapter_unowned {E W : Type} (m m1 : Memory E W)
    (dst src pd : Nat) (hne : dst ≠ src) (hd : m.wrapperOf dst = some pd)
    (halloc : m.allocated pd = true) (hown : m.ExclusivelyOwned)
    (h : NetworkClient.assign dst src m = some m1) :
    m1.allocated pd = true ∧ m1.owners pd = [] ∧ ¬ m1.ExclusivelyOwned := by
  obtain ⟨pd0, q, w, c, hd0, _, _, _, hm1⟩ := NetworkClient.assign_inv hne h
  have hpd : pd0 = pd := Option.some.inj (hd0.symm.trans hd)
  subst hpd
  have hsome : ∃ v, m.deref pd0 = some v := by
    unfold Memory.allocated at halloc
    exact Option.isSome_iff_exists.mp halloc
  obtain ⟨v, hv⟩ := hsome
  have hb := Memory.deref_bounds hv
  have hal : m1.allocated pd0 = true := by
    unfold Memory.allocated
    rw [hm1, Memory.deref_setClient, Memory.deref_alloc_of_le _ _ hb.2, hv]
    rfl
  have hnil : m1.owners pd0 = [] := by
    rw [List.eq_nil_iff_forall_not_mem]
    intro k hk
    rw [Memory.mem_owners] at hk
    by_cases hkd : k = dst
    · subst hkd
      have hlt : k < (m.alloc c).2.clients.length := Memory.wrapperOf_bounds hd
      rw [hm1, Memory.wrapperOf_setClient_self _ _ hlt] at hk
      have : m.heap.length + 1 = pd0 := Option.some.inj hk
      omega
    · rw [hm1, Memory.wrapperOf_setClient_ne _ _ hkd, Memory.wrapperOf_alloc] at hk
      exact hkd (Memory.owner_unique (hown pd0 halloc) hk hd)
  refine ⟨hal, hnil, ?_⟩
  intro hex
  have := hex pd0 hal
  rw [hnil] at this
  exact absurd this (by decide)

/-- Witness of C3: a default-constructed `dst` (handle `0`, Null Adapter at address `1`), a
`src` from `WiFiNINANetworkHub::getClient` (handle `1`, adapter at address `2`), then
`dst = src`: the Null Adapter at address `1` stays allocated and no handle owns it. -/
theorem NetworkClient.assign_leaves_previous_adapter_unowned_witness :
    ∃ m3, NetworkClient.assign 0 1
        (WiFiNINANetworkHub.getClient socketClient
          (NetworkClient.new (Memory.empty : Memory SocketClient SocketClient)).2).2 = some m3 ∧
      m3.wrapperOf 0 = some 3 ∧ m3.wrapperOf 1 = some 2 ∧
      m3.allocated 1 = true ∧ m3.owners 1 = [] ∧ ¬ m3.ExclusivelyOwned := by
  have hown : (WiFiNINANetworkHub.getClient socketClient
      (NetworkClient.new
        (Memory.empty : Memory SocketClient SocketClient)).2).2.ExclusivelyOwned := by
    intro p hp
    obtain ⟨v, hv⟩ := Option.isSome_iff_exists.mp hp
    have hb := Memory.deref_bounds hv
    have hb2 : p ≤ 2 := hb.2
    have hb1 := hb.1
    interval_cases p <;> rfl
  have T := NetworkClient.assign_leaves_previous_adapter_unowned
    (WiFiNINANetworkHub.getClient socketClient
      (NetworkClient.new (Memory.empty : Memory SocketClient SocketClient)).2).2
    _ 0 1 1 (by decide) (by decide) (by decide) hown rfl
  exact ⟨_, rfl, by decide, by decide, T.1, T.2.1, T.2.2⟩

/-! ## The non-null invariant (C4) -/

theorem Memory.WellOwned.empty {E W : Type} : (Memory.empty : Memory E W).WellOwned := by
  constructor
  · intro h p hp
    simp [Memory.wrapperOf, Memory.empty] at hp
  · intro h k p hp
    simp [Memory.wrapperOf, Memory.empty] at hp

theorem Memory.WellOwned.assign {E W : Type} {m m1 : Memory E W} (hm : m.WellOwned)
    {dst src : Nat} (h : NetworkClient.assign dst src m = some m1) : m1.WellOwned := by
  by_cases hne : dst = src
  · subst hne
    unfold NetworkClient.assign at h
    split at h
    · rw [if_pos rfl] at h
      rw [← Option.some.inj h]
      exact hm
    · exact absurd h (by simp)
  · obtain ⟨pd, q, w, c, hd, _, _, _, hm1⟩ := NetworkClient.assign_inv hne h
    have old : ∀ h p, m.wrapperOf h = some p → p ≤ m.heap.length := by
      intro h p hp
      obtain ⟨v, hv⟩ := Option.isSome_iff_exists.mp (hm.1 h p hp)
      exact (Memory.deref_bounds hv).2
    have hlt : dst < (m.alloc c).2.clients.length := Memory.wrapperOf_bounds hd
    have cases : ∀ h p, m1.wrapperOf h = some p →
        (m.wrapperOf h = some p ∧ h ≠ dst) ∨ (h = dst ∧ p = m.heap.length + 1) := by
      intro h p hp
      by_cases hh : h = dst
      · right
        subst hh
        rw [hm1, Memory.wrapperOf_setClient_self _ _ hlt] at hp
        exact ⟨rfl, (Option.some.inj hp).symm⟩
      · left
        rw [hm1, Memory.wrapperOf_setClient_ne _ _ hh, Memory.wrapperOf_alloc] at hp
        exact ⟨hp, hh⟩
    constructor
    · intro h p hp
      rcases cases h p hp with ⟨h1, _⟩ | ⟨_, h2⟩
      · rw [hm1, Memory.deref_setClient, Memory.deref_alloc_of_le _ _ (old h p h1)]
        exact hm.1 h p h1
      · subst h2
        rw [hm1, Memory.deref_setClient]
        have := Memory.deref_alloc_self m c
        rw [show (m.alloc c).1 = m.heap.length + 1 from rfl] at this
        rw [this]
        rfl
    · intro h k p hp hk
      rcases cases h p hp with ⟨h1, hl1⟩ | ⟨h1, h2⟩ <;>
        rcases cases k p hk with ⟨k1, kl1⟩ | ⟨k1, k2⟩
      · exact hm.2 h k p h1 k1
      · have := old h p h1
        omega
      · have := old k p k1
        omega
      · omega

theorem Memory.WellOwned.call {E W : Type} {m m1 : Memory E W} (hm : m.WellOwned)
    (eth : NativeClient E) (wifi : NativeClient W) {k : ClientCall} {h : Nat} {r : ClientReply}
    (hc : NetworkClient.call eth wifi k h m = some (r, m1)) : m1.WellOwned := by
  unfold NetworkClient.call at hc
  split at hc
  · exact absurd hc (by simp)
  · rename_i p hp
    split at hc
    · exact absurd hc (by simp)
    · rename_i w hw
      have hm1 : m1 = m.store p (w.call eth wifi k).2 :=
        (congrArg Prod.snd (Option.some.inj hc)).symm
      have hb := Memory.deref_bounds hw
      constructor
      · intro h2 p2 hp2
        rw [hm1, Memory.wrapperOf_store] at hp2
        rw [hm1]
        by_cases hpp : p2 = p
        · subst hpp
          rw [Memory.deref_store_self _ _ hb.1 hb.2]
          rfl
        · rw [Memory.deref_store_ne _ _ hpp]
          exact hm.1 h2 p2 hp2
      · intro h2 k2 p2 hp2 hk2
        rw [hm1, Memory.wrapperOf_store] at hp2 hk2
        exact hm.2 h2 k2 p2 hp2 hk2

theorem Memory.store_same {E W : Type} {m : Memory E W} {p : Nat}
    {w : NetworkClientWrapper E W} (hw : m.deref p = some w) : m.store p w = m := by
  have hb := Memory.deref_bounds hw
  unfold Memory.store
  rw [if_neg (by omega)]
  unfold Memory.deref at hw
  rw [if_neg (by omega)] at hw
  have hset : m.heap.set (p - 1) (some w) = m.heap := by
    apply List.ext_getElem?
    intro n
    by_cases hn : n = p - 1
    · subst hn
      have hlt : p - 1 < m.heap.length := by omega
      rw [List.getElem?_set_self hlt]
      have e : m.heap[p - 1]? = some m.heap[p - 1] := List.getElem?_eq_getElem hlt
      rw [e] at hw ⊢
      have e2 : m.heap[p - 1] = some w := hw
      rw [e2]
    · rw [List.getElem?_set_ne (by omega)]
  rw [hset]

/-- Every forwarded call on a handle that owns a Null Adapter returns the Null Adapter's reply
and leaves the memory as it was. -/
theorem NetworkClient.call_null {E W : Type} (eth : NativeClient E) (wifi : NativeClient W)
    (k : ClientCall) {m : Memory E W} {h p : Nat} (hp : m.wrapperOf h = some p)
    (hw : m.deref p = some NetworkClientWrapper.null) :
    NetworkClient.call eth wifi k h m = some (NullNetworkClientWrapper.call k, m) := by
  rw [NetworkClient.call_of_deref eth wifi k hp hw]
  show some (NullNetworkClientWrapper.call k, m.store p NetworkClientWrapper.null) = _
  rw [Memory.store_same hw]

theorem NetworkClient.new_spec {E W : Type} (m : Memory E W) :
    (NetworkClient.new m).2.wrapperOf (NetworkClient.new m).1 = some (m.heap.length + 1) ∧
    (NetworkClient.new m).2.deref (m.heap.length + 1) = some NetworkClientWrapper.null := by
  constructor
  · exact Memory.wrapperOf_addClient_self (m.alloc .null).2 (m.alloc .null).1
  · show ((m.alloc .null).2.addClient (m.alloc .null).1).2.deref (m.alloc .null).1 = _
    rw [Memory.deref_addClient]
    exact Memory.deref_alloc_self m .null

/-- C5: on a default-constructed handle every operation returns its "nothing happened" value and
none faults: `available()` is `0`, `read()` and `peek()` are `-1` (none), `connected()` is `0`
(false), `operator bool` is false, both `write`s return `0`, both `connect`s return `0`
(failure), and every call, `flush()` and `stop()` included, leaves the memory, hence the
handle's default state, unchanged. -/
theorem NetworkClient.default_handle_sentinels {E W : Type} (eth : NativeClient E)
    (wifi : NativeClient W) (m : Memory E W) :
    let h := (NetworkClient.new m).1
    let m1 := (NetworkClient.new m).2
    (∃ p, m1.wrapperOf h = some p ∧ m1.deref p = some NetworkClientWrapper.null) ∧
    NetworkClient.call eth wifi ClientCall.available h m1 = some (ClientReply.int 0, m1) ∧
    NetworkClient.call eth wifi ClientCall.read h m1 = some (ClientReply.int (-1), m1) ∧
    NetworkClient.call eth wifi ClientCall.peek h m1 = some (ClientReply.int (-1), m1) ∧
    NetworkClient.connected eth wifi h m1 = some (ClientReply.uint8 0, m1) ∧
    NetworkClient.toBool eth wifi h m1 = some (ClientReply.bool false, m1) ∧
    (∀ b, NetworkClient.call eth wifi (ClientCall.writeByte b) h m1
      = some (ClientReply.size 0, m1)) ∧
    (∀ buf, NetworkClient.call eth wifi (ClientCall.writeBuf buf) h m1
      = some (ClientReply.size 0, m1)) ∧
    (∀ ip port, NetworkClient.call eth wifi (ClientCall.connectIP ip port) h m1
      = some (ClientReply.int 0, m1)) ∧
    (∀ host port, NetworkClient.call eth wifi (ClientCall.connectHost host port) h m1
      = some (ClientReply.int 0, m1)) ∧
    NetworkClient.call eth wifi ClientCall.flush h m1 = some (ClientReply.void, m1) ∧
    NetworkClient.stop eth wifi h m1 = some (ClientReply.void, m1) ∧
    (∀ k, ∃ r, NetworkClient.call eth wifi k h m1 = some (r, m1)) := by
  intro h m1
  obtain ⟨hp, hw⟩ := NetworkClient.new_spec m
  have key := fun k => NetworkClient.call_null eth wifi k hp hw
  exact ⟨⟨_, hp, hw⟩, key _, key _, key _, key _, key _, fun _ => key _, fun _ => key _,
    fun _ _ => key _, fun _ _ => key _, key _, key _, fun k => ⟨_, key k⟩⟩

/-! ## Listening sockets (C6) -/

/-- What the construction of a handle around a newly allocated adapter `w` gives: the handle is
the next handle, it holds the next unused address, that address holds `w`, and the handles and
adapters that existed before are as they were. -/
theorem Memory.construct_spec {E W : Type} (m : Memory E W) (w : NetworkClientWrapper E W) :
    ((m.alloc w).2.addClient (m.alloc w).1).1 = m.clients.length ∧
    ((m.alloc w).2.addClient (m.alloc w).1).2.wrapperOf m.clients.length
      = some (m.heap.length + 1) ∧
    ((m.alloc w).2.addClient (m.alloc w).1).2.deref (m.heap.length + 1) = some w ∧
    (∀ h, h < m.clients.length →
      ((m.alloc w).2.addClient (m.alloc w).1).2.wrapperOf h = m.wrapperOf h) ∧
    (∀ p, p ≤ m.heap.length →
      ((m.alloc w).2.addClient (m.alloc w).1).2.deref p = m.deref p) ∧
    ((m.alloc w).2.addClient (m.alloc w).1).2.heap.length = m.heap.length + 1 ∧
    ((m.alloc w).2.addClient (m.alloc w).1).2.clients.length = m.clients.length + 1 := by
  refine ⟨rfl, ?_, ?_, ?_, ?_, ?_, ?_⟩
  · exact Memory.wrapperOf_addClient_self (m.alloc w).2 (m.alloc w).1
  · rw [Memory.deref_addClient]
    exact Memory.deref_alloc_self m w
  · intro h hl
    rw [Memory.wrapperOf_addClient_of_lt _ _ (show h < (m.alloc w).2.clients.length from hl),
      Memory.wrapperOf_alloc]
  · intro p hp
    rw [Memory.deref_addClient, Memory.deref_alloc_of_le _ _ hp]
  · simp [Memory.addClient, Memory.alloc]
  · simp [Memory.addClient, Memory.alloc]

theorem Memory.not_allocated_of_gt {E W : Type} (m : Memory E W) {p : Nat}
    (hp : m.heap.length < p) : m.allocated p = false := by
  cases hd : m.deref p with
  | none => simp [Memory.allocated, hd]
  | some v =>
    have := (Memory.deref_bounds hd).2
    omega

/-- Two constructions in a row, around the adapters `w1` and then `w2`: the two handles and the
two addresses differ, both addresses were unallocated before, each handle owns its adapter, and
a forwarded call on the first handle leaves the adapter of the second as it is (and the other
way round). -/
theorem Memory.construct_twice {E W : Type} (eth : NativeClient E) (wifi : NativeClient W)
    (m : Memory E W) (w1 w2 : NetworkClientWrapper E W) :
    let a1 := (m.alloc w1).2.addClient (m.alloc w1).1
    let a2 := (a1.2.alloc w2).2.addClient (a1.2.alloc w2).1
    a1.1 ≠ a2.1 ∧
    a2.2.wrapperOf a1.1 = some (m.heap.length + 1) ∧
    a2.2.wrapperOf a2.1 = some (m.heap.length + 2) ∧
    m.allocated (m.heap.length + 1) = false ∧
    m.allocated (m.heap.length + 2) = false ∧
    a2.2.deref (m.heap.length + 1) = some w1 ∧
    a2.2.deref (m.heap.length + 2) = some w2 ∧
    (∀ k, (NetworkClient.call eth wifi k a1.1 a2.2).map Prod.fst
      = some (w1.call eth wifi k).1) ∧
    (∀ k, (NetworkClient.call eth wifi k a2.1 a2.2).map Prod.fst
      = some (w2.call eth wifi k).1) ∧
    (∀ k r m3, NetworkClient.call eth wifi k a1.1 a2.2 = some (r, m3) →
      m3.deref (m.heap.length + 2) = some w2) ∧
    (∀ k r m3, NetworkClient.call eth wifi k a2.1 a2.2 = some (r, m3) →
      m3.deref (m.heap.length + 1) = some w1) := by
  intro a1 a2
  obtain ⟨e1, p1, d1, _, _, hl1, cl1⟩ := Memory.construct_spec m w1
  obtain ⟨e2, p2, d2, ho2, hd2, _, _⟩ := Memory.construct_spec a1.2 w2
  have ha1 : a1.1 = m.clients.length := e1
  have ha2 : a2.1 = m.clients.length + 1 := e2.trans cl1
  have hw1 : a2.2.wrapperOf a1.1 = some (m.heap.length + 1) := by
    rw [ha1]
    have := ho2 m.clients.length (by rw [cl1]; omega)
    exact this.trans p1
  have hw2 : a2.2.wrapperOf a2.1 = some (m.heap.length + 2) := by
    rw [ha2]
    have := p2
    rw [cl1, hl1] at this
    exact this
  have hd1 : a2.2.deref (m.heap.length + 1) = some w1 := by
    have := hd2 (m.heap.length + 1) (by rw [hl1])
    exact this.trans d1
  have hd2b : a2.2.deref (m.heap.length + 2) = some w2 := by
    have := d2
    rw [hl1] at this
    exact this
  refine ⟨by omega, hw1, hw2, Memory.not_allocated_of_gt m (by omega),
    Memory.not_allocated_of_gt m (by omega), hd1, hd2b, ?_, ?_, ?_, ?_⟩
  · intro k
    rw [NetworkClient.call_of_deref eth wifi k hw1 hd1]
    rfl
  · intro k
    rw [NetworkClient.call_of_deref eth wifi k hw2 hd2b]
    rfl
  · intro k r m3 hc
    rw [NetworkClient.call_of_deref eth wifi k hw1 hd1] at hc
    have hm3 := (congrArg Prod.snd (Option.some.inj hc)).symm
    simp only [] at hm3
    rw [hm3, Memory.deref_store_ne _ _ (by omega)]
    exact hd2b
  · intro k r m3 hc
    rw [NetworkClient.call_of_deref eth wifi k hw2 hd2b] at hc
    have hm3 := (congrArg Prod.snd (Option.some.inj hc)).symm
    simp only [] at hm3
    rw [hm3, Memory.deref_store_ne _ _ (by omega)]
    exact hd1

theorem NetworkClientWrapper.call_toBool_ethernet {E W : Type} (eth : NativeClient E)
    (wifi : NativeClient W) (c : E) :
    ((NetworkClientWrapper.ethernet c : NetworkClientWrapper E W).call eth wifi
      ClientCall.toBool).1 = ClientReply.bool (eth.toBool c).1 := by
  show ClientReply.bool (if (eth.toBool c).1 = true then true else false) = _
  cases (eth.toBool c).1 <;> rfl

theorem NetworkClientWrapper.call_toBool_wifi {E W : Type} (eth : NativeClient E)
    (wifi : NativeClient W) (c : W) :
    ((NetworkClientWrapper.wifi c : NetworkClientWrapper E W).call eth wifi
      ClientCall.toBool).1 = ClientReply.bool (wifi.toBool c).1 := by
  show ClientReply.bool (if (wifi.toBool c).1 = true then true else false) = _
  cases (wifi.toBool c).1 <;> rfl

/-- C6: two calls in a row of the listening socket's `available()`, for the wired and for the
wireless server adapter. With `c1` and `c2` the client values the vendor server returns to the
first and the second call: the two handles differ; they own adapters at two different addresses,
neither of which was allocated before; the adapters are of the transport's adapter class and
wrap `c1` and `c2`; the `operator bool` of each handle is the truth value of its client value;
`connected()` of the first handle is what `c1` reports. So when `c1` is connected and `c2` is
empty (false), the first handle reports connected and the second is not usable. A call on either
handle leaves the adapter of the other unchanged. -/
theorem ServerWrapper.available_twice {E W SE SW : Type} (eth : NativeClient E)
    (wifi : NativeClient W) (srvE : NativeServer SE E) (srvW : NativeServer SW W)
    (serverE : SE) (serverW : SW) (m : Memory E W) :
    (let a1 := EthernetServerWrapper.available srvE serverE m
     let a2 := EthernetServerWrapper.available srvE a1.1.2 a1.2
     let c1 := (srvE.available serverE).1
     let c2 := (srvE.available (srvE.available serverE).2).1
     a1.1.1 ≠ a2.1.1 ∧
     a2.2.wrapperOf a1.1.1 = some (m.heap.length + 1) ∧
     a2.2.wrapperOf a2.1.1 = some (m.heap.length + 2) ∧
     m.allocated (m.heap.length + 1) = false ∧
     m.allocated (m.heap.length + 2) = false ∧
     a2.2.deref (m.heap.length + 1) = some (NetworkClientWrapper.ethernet c1) ∧
     a2.2.deref (m.heap.length + 2) = some (NetworkClientWrapper.ethernet c2) ∧
     (NetworkClient.toBool eth wifi a1.1.1 a2.2).map Prod.fst
       = some (ClientReply.bool (eth.toBool c1).1) ∧
     (NetworkClient.toBool eth wifi a2.1.1 a2.2).map Prod.fst
       = some (ClientReply.bool (eth.toBool c2).1) ∧
     (NetworkClient.connected eth wifi a1.1.1 a2.2).map Prod.fst
       = some (ClientReply.uint8 (eth.connected c1).1) ∧
     ((eth.connected c1).1 ≠ 0 → (eth.toBool c2).1 = false →
       (∃ v, (NetworkClient.connected eth wifi a1.1.1 a2.2).map Prod.fst
           = some (ClientReply.uint8 v) ∧ v ≠ 0) ∧
       (NetworkClient.toBool eth wifi a2.1.1 a2.2).map Prod.fst
         = some (ClientReply.bool false)) ∧
     (∀ k r m3, NetworkClient.call eth wifi k a1.1.1 a2.2 = some (r, m3) →
       m3.deref (m.heap.length + 2) = some (NetworkClientWrapper.ethernet c2)) ∧
     (∀ k r m3, NetworkClient.call eth wifi k a2.1.1 a2.2 = some (r, m3) →
       m3.deref (m.heap.length + 1) = some (NetworkClientWrapper.ethernet c1))) ∧
    (let a1 := WiFiNINAServerWrapper.available srvW serverW m
     let a2 := WiFiNINAServerWrapper.available srvW a1.1.2 a1.2
     let c1 := (srvW.available serverW).1
     let c2 := (srvW.available (srvW.available serverW).2).1
     a1.1.1 ≠ a2.1.1 ∧
     a2.2.wrapperOf a1.1.1 = some (m.heap.length + 1) ∧
     a2.2.wrapperOf a2.1.1 = some (m.heap.length + 2) ∧
     m.allocated (m.heap.length + 1) = false ∧
     m.allocated (m.heap.length + 2) = false ∧
     a2.2.deref (m.heap.length + 1) = some (NetworkClientWrapper.wifi c1) ∧
     a2.2.deref (m.heap.length + 2) = some (NetworkClientWrapper.wifi c2) ∧
     (NetworkClient.toBool eth wifi a1.1.1 a2.2).map Prod.fst
       = some (ClientReply.bool (wifi.toBool c1).1) ∧
     (NetworkClient.toBool eth wifi a2.1.1 a2.2).map Prod.fst
       = some (ClientReply.bool (wifi.toBool c2).1) ∧
     (NetworkClient.connected eth wifi a1.1.1 a2.2).map Prod.fst
       = some (ClientReply.uint8 (wifi.connected c1).1) ∧
     ((wifi.connected c1).1 ≠ 0 → (wifi.toBool c2).1 = false →
       (∃ v, (NetworkClient.connected eth wifi a1.1.1 a2.2).map Prod.fst
           = some (ClientReply.uint8 v) ∧ v ≠ 0) ∧
       (NetworkClient.toBool eth wifi a2.1.1 a2.2).map Prod.fst
         = some (ClientReply.bool false)) ∧
     (∀ k r m3, NetworkClient.call eth wifi k a1.1.1 a2.2 = some (r, m3) →
       m3.deref (m.heap.length + 2) = some (NetworkClientWrapper.wifi c2)) ∧
     (∀ k r m3, NetworkClient.call eth wifi k a2.1.1 a2.2 = some (r, m3) →
       m3.deref (m.heap.length + 1) = some (NetworkClientWrapper.wifi c1))) := by
  constructor
  · intro a1 a2 c1 c2
    obtain ⟨t1, t2, t3, t4, t5, t6, t7, t8, t9, t10, t11⟩ :=
      Memory.construct_twice eth wifi m (NetworkClientWrapper.ethernet c1)
        (NetworkClientWrapper.ethernet c2)
    have hb1 := (t8 ClientCall.toBool).trans
      (congrArg some (NetworkClientWrapper.call_toBool_ethernet eth wifi c1))
    have hb2 := (t9 ClientCall.toBool).trans
      (congrArg some (NetworkClientWrapper.call_toBool_ethernet eth wifi c2))
    have hc1 := t8 ClientCall.connected
    refine ⟨t1, t2, t3, t4, t5, t6, t7, hb1, hb2, hc1, ?_, t10, t11⟩
    intro hconn hfalse
    refine ⟨⟨_, hc1, hconn⟩, ?_⟩
    rw [← hfalse]
    exact hb2
  · intro a1 a2 c1 c2
    obtain ⟨t1, t2, t3, t4, t5, t6, t7, t8, t9, t10, t11⟩ :=
      Memory.construct_twice eth wifi m (NetworkClientWrapper.wifi c1)
        (NetworkClientWrapper.wifi c2)
    have hb1 := (t8 ClientCall.toBool).trans
      (congrArg some (NetworkClientWrapper.call_toBool_wifi eth wifi c1))
    have hb2 := (t9 ClientCall.toBool).trans
      (congrArg some (NetworkClientWrapper.call_toBool_wifi eth wifi c2))
    have hc1 := t8 ClientCall.connected
    refine ⟨t1, t2, t3, t4, t5, t6, t7, hb1, hb2, hc1, ?_, t10, t11⟩
    intro hconn hfalse
    refine ⟨⟨_, hc1, hconn⟩, ?_⟩
    rw [← hfalse]
    exact hb2

/-- Witness of C6 on the sample vendor: one pending connected client, `available()` called twice
on each server adapter from the empty memory; the first handle (`0`, adapter at address `1`)
reports connected, the second (`1`, adapter at address `2`) is not usable. -/
theorem ServerWrapper.available_twice_witness :
    (NetworkClient.connected socketClient socketClient 0
        (EthernetServerWrapper.available pendingServer
          (EthernetServerWrapper.available pendingServer [⟨0, true⟩]
            (Memory.empty : Memory SocketClient SocketClient)).1.2
          (EthernetServerWrapper.available pendingServer [⟨0, true⟩]
            (Memory.empty : Memory SocketClient SocketClient)).2).2).map Prod.fst
      = some (ClientReply.uint8 1) ∧
    (NetworkClient.toBool socketClient socketClient 1
        (EthernetServerWrapper.available pendingServer
          (EthernetServerWrapper.available pendingServer [⟨0, true⟩]
            (Memory.empty : Memory SocketClient SocketClient)).1.2
          (EthernetServerWrapper.available pendingServer [⟨0, true⟩]
            (Memory.empty : Memory SocketClient SocketClient)).2).2).map Prod.fst
      = some (ClientReply.bool false) ∧
    (NetworkClient.toBool socketClient socketClient 1
        (WiFiNINAServerWrapper.available pendingServer
          (WiFiNINAServerWrapper.available pendingServer [⟨0, true⟩]
            (Memory.empty : Memory SocketClient SocketClient)).1.2
          (WiFiNINAServerWrapper.available pendingServer [⟨0, true⟩]
            (Memory.empty : Memory SocketClient SocketClient)).2).2).map Prod.fst
      = some (ClientReply.bool false) := by
  have T := ServerWrapper.available_twice socketClient socketClient pendingServer
    pendingServer [⟨0, true⟩] [⟨0, true⟩] (Memory.empty : Memory SocketClient SocketClient)
  obtain ⟨⟨_, _, _, _, _, _, _, _, _, e10, e11, _⟩,
    ⟨_, _, _, _, _, _, _, _, _, _, w11, _⟩⟩ := T
  exact ⟨e10, (e11 (by decide) (by decide)).2, (w11 (by decide) (by decide)).2⟩

/-! ## Wired hub bring-up (C7, C8) -/

/-- The result of `EthernetNetworkHub::begin` in full: with `g1` the vendor stack after the
start of the connection, `hw` the hardware status read from it and `link` the link status read
next, the call succeeds exactly when the DHCP start (if used) did not report `0`, the hardware
is present and the link is not off; it prints the start line(s) and then one line per failed
check; and it returns the hub object it was called on. -/
theorem EthernetNetworkHub.begin_eq {G : Type} (eth : EthernetClass G) (hub : NetworkHub)
    (macAddress : List Nat) (g : G) (printer : List Printed) :
    let dhcp := eth.beginDHCP g macAddress
    let g1 := if hub.hasConfiguredLocalIPAddress then
        eth.beginStatic g macAddress hub.configuredLocalIPAddress hub.configuredDNSIPAddress
          hub.configuredGatewayIPAddress hub.configuredSubnetMask
      else dhcp.2
    let hw := eth.hardwareStatus g1
    let link := eth.linkStatus hw.2
    EthernetNetworkHub.begin eth hub macAddress g printer =
      { success := !((!hub.hasConfiguredLocalIPAddress && decide (dhcp.1 = 0)) ||
          decide (hw.1 = EthernetHardwareStatus.EthernetNoHardware) ||
          decide (link.1 = EthernetLinkStatus.LinkOFF))
        hub := hub
        stack := link.2
        printed := printer ++
          (if hub.hasConfiguredLocalIPAddress then
            [Printed.text "Connecting with ip address ",
              Printed.address hub.configuredLocalIPAddress]
          else if dhcp.1 = 0 then
            [Printed.line "Connecting with ip address from DHCP",
              Printed.line "Failed to configure Ethernet using DHCP"]
          else [Printed.line "Connecting with ip address from DHCP"]) ++
          (if hw.1 = EthernetHardwareStatus.EthernetNoHardware then
            [Printed.line "Ethernet hardware was not found."] else []) ++
          (if link.1 = EthernetLinkStatus.LinkOFF then
            [Printed.line "Ethernet cable is not connected."] else []) } := by
  intro dhcp g1 hw link
  simp only [EthernetNetworkHub.begin, EthernetNetworkHub.checkLink,
    EthernetNetworkHub.checkHardware, EthernetNetworkHub.startConnection]
  cases hcfg : hub.hasConfiguredLocalIPAddress <;>
    by_cases hd : dhcp.1 = 0 <;>
    by_cases hh : hw.1 = EthernetHardwareStatus.EthernetNoHardware <;>
    by_cases hl : link.1 = EthernetLinkStatus.LinkOFF <;>
    simp_all [dhcp, g1, hw, link]

/-- C7: `EthernetNetworkHub::begin` signals failure (returns `false`) exactly when the DHCP
start is used (no static address configured) and reports status `0`, or the hardware status is
`EthernetNoHardware`, or the link status is `LinkOFF`; for each of these that holds, its
diagnostic line is printed; and with a static address configured the outcome depends only on
the hardware and the link status. Here the hardware status is read from the vendor stack after
the start of the connection, and the link status right after it. -/
theorem EthernetNetworkHub.begin_fails_iff {G : Type} (eth : EthernetClass G) (hub : NetworkHub)
    (macAddress : List Nat) (g : G) (printer : List Printed) :
    let dhcp := eth.beginDHCP g macAddress
    let g1 := if hub.hasConfiguredLocalIPAddress then
        eth.beginStatic g macAddress hub.configuredLocalIPAddress hub.configuredDNSIPAddress
          hub.configuredGatewayIPAddress hub.configuredSubnetMask
      else dhcp.2
    let hw := eth.hardwareStatus g1
    let link := eth.linkStatus hw.2
    let r := EthernetNetworkHub.begin eth hub macAddress g printer
    (r.success = false ↔
      (hub.hasConfiguredLocalIPAddress = false ∧ dhcp.1 = 0) ∨
      hw.1 = EthernetHardwareStatus.EthernetNoHardware ∨
      link.1 = EthernetLinkStatus.LinkOFF) ∧
    (hub.hasConfiguredLocalIPAddress = false ∧ dhcp.1 = 0 →
      Printed.line "Failed to configure Ethernet using DHCP" ∈ r.printed) ∧
    (hw.1 = EthernetHardwareStatus.EthernetNoHardware →
      Printed.line "Ethernet hardware was not found." ∈ r.printed) ∧
    (link.1 = EthernetLinkStatus.LinkOFF →
      Printed.line "Ethernet cable is not connected." ∈ r.printed) ∧
    (hub.hasConfiguredLocalIPAddress = true →
      (r.success = false ↔
        hw.1 = EthernetHardwareStatus.EthernetNoHardware ∨
        link.1 = EthernetLinkStatus.LinkOFF)) := by
  intro dhcp g1 hw link r
  have h := EthernetNetworkHub.begin_eq eth hub macAddress g printer
  simp only [] at h
  have hr : r = _ := h
  refine ⟨?_, ?_, ?_, ?_, ?_⟩
  · rw [hr]
    cases hc : hub.hasConfiguredLocalIPAddress <;> simp [hc, dhcp, g1, hw, link] <;> tauto
  · rintro ⟨hc, hd⟩
    have hd2 : (eth.beginDHCP g macAddress).1 = 0 := hd
    rw [hr]
    simp [hc, hd2]
  · intro hh
    rw [hr]
    simp only [List.mem_append]
    left; right
    rw [if_pos hh]
    exact List.mem_singleton.mpr rfl
  · intro hl
    rw [hr]
    simp only [List.mem_append]
    right
    rw [if_pos hl]
    exact List.mem_singleton.mpr rfl
  · intro hc
    rw [hr]
    simp [hc, g1, hw, link]
    tauto

/-- Witness of C7 on the sample vendor: no static address, DHCP reports `0`, no hardware, link
off: `begin` returns `false` and the three diagnostic lines are printed. -/
theorem EthernetNetworkHub.begin_fails_iff_witness :
    (EthernetNetworkHub.begin wiredEthernet dhcpHub [222, 173, 190, 239, 254, 237]
        ⟨0, .EthernetNoHardware, .LinkOFF, IPAddress.zero⟩ []).success = false ∧
    Printed.line "Failed to configure Ethernet using DHCP" ∈
      (EthernetNetworkHub.begin wiredEthernet dhcpHub [222, 173, 190, 239, 254, 237]
        ⟨0, .EthernetNoHardware, .LinkOFF, IPAddress.zero⟩ []).printed ∧
    Printed.line "Ethernet hardware was not found." ∈
      (EthernetNetworkHub.begin wiredEthernet dhcpHub [222, 173, 190, 239, 254, 237]
        ⟨0, .EthernetNoHardware, .LinkOFF, IPAddress.zero⟩ []).printed ∧
    Printed.line "Ethernet cable is not connected." ∈
      (EthernetNetworkHub.begin wiredEthernet dhcpHub [222, 173, 190, 239, 254, 237]
        ⟨0, .EthernetNoHardware, .LinkOFF, IPAddress.zero⟩ []).printed := by
  have T := EthernetNetworkHub.begin_fails_iff wiredEthernet dhcpHub
    [222, 173, 190, 239, 254, 237] ⟨0, .EthernetNoHardware, .LinkOFF, IPAddress.zero⟩ []
  exact ⟨T.1.mpr (Or.inl ⟨rfl, rfl⟩), T.2.1 ⟨rfl, rfl⟩, T.2.2.1 rfl, T.2.2.2.1 rfl⟩

/-- C8, as stated, fails on the sample vendor: with no static address configured and the
hardware status `EthernetNoHardware`, `begin` returns `false`, not `true`; and
`getLocalIPAddress()` afterwards returns the address the vendor reports, here `192.168.1.20`,
not the all-zero address. -/
theorem EthernetNetworkHub.begin_no_hardware_returns_false :
    dhcpHub.hasConfiguredLocalIPAddress = false ∧
    (wiredEthernet.hardwareStatus
      (wiredEthernet.beginDHCP ⟨0, .EthernetNoHardware, .Unknown, ⟨192, 168, 1, 20⟩⟩
        [222, 173, 190, 239, 254, 237]).2).1 = EthernetHardwareStatus.EthernetNoHardware ∧
    ¬ ((EthernetNetworkHub.begin wiredEthernet dhcpHub [222, 173, 190, 239, 254, 237]
        ⟨0, .EthernetNoHardware, .Unknown, ⟨192, 168, 1, 20⟩⟩ []).success = true) ∧
    ¬ ((EthernetNetworkHub.getLocalIPAddress wiredEthernet
        (EthernetNetworkHub.begin wiredEthernet dhcpHub [222, 173, 190, 239, 254, 237]
          ⟨0, .EthernetNoHardware, .Unknown, ⟨192, 168, 1, 20⟩⟩ []).stack).1
        = IPAddress.zero) := by
  refine ⟨rfl, rfl, ?_, ?_⟩ <;> decide

/-- C8, amended: with no static address configured, for every MAC address, `begin` prints the
line "Connecting with ip address from DHCP" and, when the hardware status is
`EthernetNoHardware`, prints "Ethernet hardware was not found." and returns `false` (the
returned value is the success flag); `getLocalIPAddress()` called afterwards returns, without
any change of its own, the address that the vendor's `Ethernet.localIP()` reports for the stack
that `begin` left behind. -/
theorem EthernetNetworkHub.begin_dhcp_no_hardware {G : Type} (eth : EthernetClass G)
    (hub : NetworkHub) (macAddress : List Nat) (g : G) (printer : List Printed)
    (hcfg : hub.hasConfiguredLocalIPAddress = false) :
    let r := EthernetNetworkHub.begin eth hub macAddress g printer
    let hw := eth.hardwareStatus (eth.beginDHCP g macAddress).2
    Printed.line "Connecting with ip address from DHCP" ∈ r.printed ∧
    (hw.1 = EthernetHardwareStatus.EthernetNoHardware →
      r.success = false ∧ Printed.line "Ethernet hardware was not found." ∈ r.printed) ∧
    r.stack = (eth.linkStatus hw.2).2 ∧
    EthernetNetworkHub.getLocalIPAddress eth r.stack = eth.localIP (eth.linkStatus hw.2).2 := by
  intro r hw
  have h := EthernetNetworkHub.begin_eq eth hub macAddress g printer
  simp only [hcfg] at h
  have hr : r = _ := h
  have hstack : r.stack = (eth.linkStatus hw.2).2 := by
    rw [hr]
    simp [hw]
  refine ⟨?_, ?_, hstack, ?_⟩
  · rw [hr]
    by_cases hd : (eth.beginDHCP g macAddress).1 = 0 <;> simp [hd]
  · intro hh
    have hh2 : (eth.hardwareStatus (eth.beginDHCP g macAddress).2).1
        = EthernetHardwareStatus.EthernetNoHardware := hh
    rw [hr]
    simp [hh2]
  · rw [hstack]
    rfl

/-- Witness of the amended C8 on the sample vendor. -/
theorem EthernetNetworkHub.begin_dhcp_no_hardware_witness :
    Printed.line "Connecting with ip address from DHCP" ∈
      (EthernetNetworkHub.begin wiredEthernet dhcpHub [222, 173, 190, 239, 254, 237]
        ⟨0, .EthernetNoHardware, .Unknown, IPAddress.zero⟩ []).printed ∧
    (EthernetNetworkHub.begin wiredEthernet dhcpHub [222, 173, 190, 239, 254, 237]
        ⟨0, .EthernetNoHardware, .Unknown, IPAddress.zero⟩ []).success = false ∧
    (EthernetNetworkHub.getLocalIPAddress wiredEthernet
        (EthernetNetworkHub.begin wiredEthernet dhcpHub [222, 173, 190, 239, 254, 237]
          ⟨0, .EthernetNoHardware, .Unknown, IPAddress.zero⟩ []).stack).1 = IPAddress.zero := by
  have T := EthernetNetworkHub.begin_dhcp_no_hardware wiredEthernet dhcpHub
    [222, 173, 190, 239, 254, 237] ⟨0, .EthernetNoHardware, .Unknown, IPAddress.zero⟩ [] rfl
  refine ⟨T.1, (T.2.1 rfl).1, ?_⟩
  rw [T.2.2.2]
  rfl

/-! ## Wireless hub bring-up (C9) -/

namespace WiFiNINANetworkHub

variable {G : Type}

theorem connectLoop_connected (wifi : WiFiClass G) (hub : NetworkHub) (ssid password : String)
    (attemptsLeft : Nat) (g : G) (printer : List Printed) (calls : List WiFiCall) :
    connectLoop wifi hub ssid password attemptsLeft wifi.WL_CONNECTED g printer calls =
      { success := true, hub := hub, stack := g, calls := calls
        printed := printer ++ [.line "Connected to wifi"] } := by
  unfold connectLoop
  simp

theorem connectLoop_exhausted (wifi : WiFiClass G) (hub : NetworkHub) (ssid password : String)
    {status : Int} (hs : status ≠ wifi.WL_CONNECTED) (g : G) (printer : List Printed)
    (calls : List WiFiCall) :
    connectLoop wifi hub ssid password 0 status g printer calls =
      { success := false, hub := hub, stack := g, calls := calls
        printed := printer ++
          [.line "All conection attempts exhausted, failed to connected to wifi"] } := by
  unfold connectLoop
  simp [hs]

theorem connectLoop_attempt (wifi : WiFiClass G) (hub : NetworkHub) (ssid password : String)
    (left : Nat) {status : Int} (hs : status ≠ wifi.WL_CONNECTED) (g : G)
    (printer : List Printed) (calls : List WiFiCall) :
    connectLoop wifi hub ssid password (left + 1) status g printer calls =
      connectLoop wifi hub ssid password left (wifi.begin g ssid password).1
        (wifi.delay (wifi.begin g ssid password).2 10000)
        (printer ++ [.text "Attempting to connect to SSID: ", .line ssid])
        (calls ++ [.begin ssid password (wifi.begin g ssid password).1, .delay 10000]) := by
  rw [connectLoop]
  simp [hs]

/-- The loop entered as `begin` enters it (three attempts left, status `WL_IDLE_STATUS`), by the
statuses `a1`, `a2`, `a3` that the first, second and third association attempt return. -/
theorem connectLoop_three (wifi : WiFiClass G) (hub : NetworkHub) (ssid password : String)
    (hidle : wifi.WL_IDLE_STATUS ≠ wifi.WL_CONNECTED) (g0 : G) (printer : List Printed)
    (calls : List WiFiCall) :
    let a1 := wifi.begin g0 ssid password
    let a2 := wifi.begin (wifi.delay a1.2 10000) ssid password
    let a3 := wifi.begin (wifi.delay a2.2 10000) ssid password
    let r := connectLoop wifi hub ssid password 3 wifi.WL_IDLE_STATUS g0 printer calls
    r.hub = hub ∧
    (a1.1 = wifi.WL_CONNECTED →
      r.success = true ∧ r.stack = wifi.delay a1.2 10000 ∧
      r.calls = calls ++ [.begin ssid password a1.1, .delay 10000] ∧
      Printed.line "Connected to wifi" ∈ r.printed) ∧
    (a1.1 ≠ wifi.WL_CONNECTED → a2.1 = wifi.WL_CONNECTED →
      r.success = true ∧ r.stack = wifi.delay a2.2 10000 ∧
      r.calls = calls ++ [.begin ssid password a1.1, .delay 10000,
        .begin ssid password a2.1, .delay 10000] ∧
      Printed.line "Connected to wifi" ∈ r.printed) ∧
    (a1.1 ≠ wifi.WL_CONNECTED → a2.1 ≠ wifi.WL_CONNECTED → a3.1 = wifi.WL_CONNECTED →
      r.success = true ∧ r.stack = wifi.delay a3.2 10000 ∧
      r.calls = calls ++ [.begin ssid password a1.1, .delay 10000,
        .begin ssid password a2.1, .delay 10000, .begin ssid password a3.1, .delay 10000] ∧
      Printed.line "Connected to wifi" ∈ r.printed) ∧
    (a1.1 ≠ wifi.WL_CONNECTED → a2.1 ≠ wifi.WL_CONNECTED → a3.1 ≠ wifi.WL_CONNECTED →
      r.success = false ∧ r.stack = wifi.delay a3.2 10000 ∧
      r.calls = calls ++ [.begin ssid password a1.1, .delay 10000,
        .begin ssid password a2.1, .delay 10000, .begin ssid password a3.1, .delay 10000] ∧
      Printed.line "All conection attempts exhausted, failed to connected to wifi"
        ∈ r.printed) := by
  intro a1 a2 a3 r
  have e1 : r = connectLoop wifi hub ssid password 2 a1.1 (wifi.delay a1.2 10000)
      (printer ++ [.text "Attempting to connect to SSID: ", .line ssid])
      (calls ++ [.begin ssid password a1.1, .delay 10000]) :=
    connectLoop_attempt wifi hub ssid password 2 hidle g0 printer calls
  refine ⟨?_, ?_, ?_, ?_, ?_⟩
  · rw [e1]
    by_cases h1 : a1.1 = wifi.WL_CONNECTED
    · rw [h1, connectLoop_connected]
    · rw [connectLoop_attempt wifi hub ssid password 1 h1]
      by_cases h2 : a2.1 = wifi.WL_CONNECTED
      · have h2b : (wifi.begin (wifi.delay a1.2 10000) ssid password).1 = wifi.WL_CONNECTED := h2
        rw [h2b, connectLoop_connected]
      · have h2b : (wifi.begin (wifi.delay a1.2 10000) ssid password).1 ≠ wifi.WL_CONNECTED := h2
        rw [connectLoop_attempt wifi hub ssid password 0 h2b]
        by_cases h3 : a3.1 = wifi.WL_CONNECTED
        · have h3b : (wifi.begin (wifi.delay (wifi.begin (wifi.delay a1.2 10000) ssid
              password).2 10000) ssid password).1 = wifi.WL_CONNECTED := h3
          rw [h3b, connectLoop_connected]
        · have h3b : (wifi.begin (wifi.delay (wifi.begin (wifi.delay a1.2 10000) ssid
              password).2 10000) ssid password).1 ≠ wifi.WL_CONNECTED := h3
          rw [connectLoop_exhausted wifi hub ssid password h3b]
  · intro h1
    rw [e1, h1, connectLoop_connected]
    simp
  · intro h1 h2
    have h2b : (wifi.begin (wifi.delay a1.2 10000) ssid password).1 = wifi.WL_CONNECTED := h2
    rw [e1, connectLoop_attempt wifi hub ssid password 1 h1, h2b, connectLoop_connected]
    simp [a2, h2b]
  · intro h1 h2 h3
    have h2b : (wifi.begin (wifi.delay a1.2 10000) ssid password).1 ≠ wifi.WL_CONNECTED := h2
    have h3b : (wifi.begin (wifi.delay (wifi.begin (wifi.delay a1.2 10000) ssid
        password).2 10000) ssid password).1 = wifi.WL_CONNECTED := h3
    rw [e1, connectLoop_attempt wifi hub ssid password 1 h1,
      connectLoop_attempt wifi hub ssid password 0 h2b, h3b, connectLoop_connected]
    simp [a2, a3, h3b]
  · intro h1 h2 h3
    have h2b : (wifi.begin (wifi.delay a1.2 10000) ssid password).1 ≠ wifi.WL_CONNECTED := h2
    have h3b : (wifi.begin (wifi.delay (wifi.begin (wifi.delay a1.2 10000) ssid
        password).2 10000) ssid password).1 ≠ wifi.WL_CONNECTED := h3
    rw [e1, connectLoop_attempt wifi hub ssid password 1 h1,
      connectLoop_attempt wifi hub ssid password 0 h2b,
      connectLoop_exhausted wifi hub ssid password h3b]
    simp [a2, a3]

end WiFiNINANetworkHub

namespace WiFiNINANetworkHub

variable {G : Type}

/-- The calls `begin` has made when it enters the loop. -/
theorem attempts_base (hub : NetworkHub) (rest : List WiFiCall) :
    List.filterMap WiFiCall.attempt
      ((if hub.hasConfiguredLocalIPAddress then
          [WiFiCall.firmwareVersion, WiFiCall.status,
            WiFiCall.config hub.configuredLocalIPAddress hub.configuredDNSIPAddress
              hub.configuredGatewayIPAddress hub.configuredSubnetMask]
        else [WiFiCall.firmwareVersion, WiFiCall.status]) ++ rest)
      = List.filterMap WiFiCall.attempt rest := by
  cases hub.hasConfiguredLocalIPAddress <;> simp [WiFiCall.attempt]

/-- The two ways `begin` goes on after the module check: it returns at once when the module is
absent, and enters the loop with three attempts left otherwise. -/
theorem begin_split (wifi : WiFiClass G) (hub : NetworkHub) (ssid password : String) (g : G)
    (printer : List Printed) :
    let st := wifi.status (wifi.firmwareVersion g).2
    let g0 := if hub.hasConfiguredLocalIPAddress then
        wifi.config st.2 hub.configuredLocalIPAddress hub.configuredDNSIPAddress
          hub.configuredGatewayIPAddress hub.configuredSubnetMask
      else st.2
    (st.1 = wifi.WL_NO_MODULE →
      begin wifi hub ssid password g printer =
        { success := false, hub := hub, stack := st.2
          calls := [WiFiCall.firmwareVersion, WiFiCall.status]
          printed := printer ++ [Printed.text "Found firmware ",
            Printed.line (wifi.firmwareVersion g).1] ++
            [Printed.line "Communication with WiFi module failed!"] }) ∧
    (st.1 ≠ wifi.WL_NO_MODULE →
      begin wifi hub ssid password g printer =
        connectLoop wifi hub ssid password 3 wifi.WL_IDLE_STATUS g0
          (printer ++ [Printed.text "Found firmware ", Printed.line (wifi.firmwareVersion g).1])
          ((if hub.hasConfiguredLocalIPAddress then
              [WiFiCall.firmwareVersion, WiFiCall.status,
                WiFiCall.config hub.configuredLocalIPAddress hub.configuredDNSIPAddress
                  hub.configuredGatewayIPAddress hub.configuredSubnetMask]
            else [WiFiCall.firmwareVersion, WiFiCall.status]) ++ [])) := by
  intro st g0
  constructor
  · intro hm
    have hm2 : (wifi.status (wifi.firmwareVersion g).2).1 = wifi.WL_NO_MODULE := hm
    simp [begin, hm2, st]
  · intro hm
    have hm2 : (wifi.status (wifi.firmwareVersion g).2).1 ≠ wifi.WL_NO_MODULE := hm
    cases hc : hub.hasConfiguredLocalIPAddress <;> simp [begin, hm2, hc, g0, st]

end WiFiNINANetworkHub

/-- C9: `WiFiNINANetworkHub::begin`, for vendor status codes with
`WL_IDLE_STATUS ≠ WL_CONNECTED`. With `st` the module status read after the firmware version,
and `a1`, `a2`, `a3` the statuses the vendor returns to a first, second and third
`WiFi.begin(ssid, password)` (each followed by the ten-second delay): the attempts made are
none when the module is absent, else `a1` alone when it is `WL_CONNECTED`, else `a1, a2` when
`a2` is, else `a1, a2, a3`; so there are at most three, and a `WL_CONNECTED` can only be the
last. The call returns `true` exactly when the module is present and one of the attempts made
returned `WL_CONNECTED`. With the module absent it returns `false` after the calls
`firmwareVersion` and `status` alone (no `WiFi.config`, no attempt). When all three attempts
fail it returns `false`. Every `false` comes with its diagnostic line. -/
theorem WiFiNINANetworkHub.begin_attempts {G : Type} (wifi : WiFiClass G) (hub : NetworkHub)
    (ssid password : String) (g : G) (printer : List Printed)
    (hidle : wifi.WL_IDLE_STATUS ≠ wifi.WL_CONNECTED) :
    let st := wifi.status (wifi.firmwareVersion g).2
    let g0 := if hub.hasConfiguredLocalIPAddress then
        wifi.config st.2 hub.configuredLocalIPAddress hub.configuredDNSIPAddress
          hub.configuredGatewayIPAddress hub.configuredSubnetMask
      else st.2
    let a1 := wifi.begin g0 ssid password
    let a2 := wifi.begin (wifi.delay a1.2 10000) ssid password
    let a3 := wifi.begin (wifi.delay a2.2 10000) ssid password
    let r := WiFiNINANetworkHub.begin wifi hub ssid password g printer
    r.attempts =
      (if st.1 = wifi.WL_NO_MODULE then []
        else if a1.1 = wifi.WL_CONNECTED then [a1.1]
        else if a2.1 = wifi.WL_CONNECTED then [a1.1, a2.1]
        else [a1.1, a2.1, a3.1]) ∧
    r.attempts.length ≤ 3 ∧
    (r.success = true ↔ st.1 ≠ wifi.WL_NO_MODULE ∧ wifi.WL_CONNECTED ∈ r.attempts) ∧
    (∀ i, r.attempts[i]? = some wifi.WL_CONNECTED → i + 1 = r.attempts.length) ∧
    (st.1 = wifi.WL_NO_MODULE →
      r.success = false ∧ r.calls = [WiFiCall.firmwareVersion, WiFiCall.status] ∧
      Printed.line "Communication with WiFi module failed!" ∈ r.printed) ∧
    (st.1 ≠ wifi.WL_NO_MODULE → a1.1 ≠ wifi.WL_CONNECTED → a2.1 ≠ wifi.WL_CONNECTED →
      a3.1 ≠ wifi.WL_CONNECTED →
      r.success = false ∧
      Printed.line "All conection attempts exhausted, failed to connected to wifi"
        ∈ r.printed) ∧
    (r.success = false →
      Printed.line "Communication with WiFi module failed!" ∈ r.printed ∨
      Printed.line "All conection attempts exhausted, failed to connected to wifi"
        ∈ r.printed) := by
  intro st g0 a1 a2 a3 r
  obtain ⟨habsent, hpresent⟩ := WiFiNINANetworkHub.begin_split wifi hub ssid password g printer
  by_cases hm : st.1 = wifi.WL_NO_MODULE
  · have hr : r = _ := habsent hm
    have hatt : r.attempts = [] := by
      rw [hr]; simp [WiFiBeginResult.attempts, WiFiCall.attempt]
    have hs : r.success = false := by rw [hr]
    have hc : r.calls = [WiFiCall.firmwareVersion, WiFiCall.status] := by rw [hr]
    have hp : Printed.line "Communication with WiFi module failed!" ∈ r.printed := by
      rw [hr]; simp
    refine ⟨?_, ?_, ?_, ?_, ?_, ?_, ?_⟩
    · rw [hatt, if_pos hm]
    · rw [hatt]; simp
    · rw [hs]; simp [hm]
    · intro i hi
      rw [hatt] at hi
      simp at hi
    · exact fun _ => ⟨hs, hc, hp⟩
    · exact fun h => absurd hm h
    · exact fun _ => Or.inl hp
  · have hr : r = _ := hpresent hm
    obtain ⟨_, c1, c2, c3, c4⟩ := WiFiNINANetworkHub.connectLoop_three wifi hub ssid password
      hidle g0 (printer ++ [Printed.text "Found firmware ",
        Printed.line (wifi.firmwareVersion g).1])
      ((if hub.hasConfiguredLocalIPAddress then
          [WiFiCall.firmwareVersion, WiFiCall.status,
            WiFiCall.config hub.configuredLocalIPAddress hub.configuredDNSIPAddress
              hub.configuredGatewayIPAddress hub.configuredSubnetMask]
        else [WiFiCall.firmwareVersion, WiFiCall.status]) ++ [])
    rw [← hr] at c1 c2 c3 c4
    by_cases h1 : a1.1 = wifi.WL_CONNECTED
    · obtain ⟨hs, _, hc, _⟩ := c1 h1
      have hatt : r.attempts = [a1.1] := by
        unfold WiFiBeginResult.attempts
        rw [hc, List.append_assoc, WiFiNINANetworkHub.attempts_base]
        simp [WiFiCall.attempt]
      refine ⟨?_, ?_, ?_, ?_, ?_, ?_, ?_⟩
      · rw [hatt, if_neg hm, if_pos h1]
      · rw [hatt]; simp
      · rw [hs, hatt]; simp [hm, h1]
      · intro i hi
        rw [hatt] at hi ⊢
        rcases i with _ | i
        · rfl
        · simp at hi
      · exact fun h => absurd h hm
      · exact fun _ h => absurd h1 h
      · intro h; rw [hs] at h; exact absurd h (by simp)
    · by_cases h2 : a2.1 = wifi.WL_CONNECTED
      · obtain ⟨hs, _, hc, _⟩ := c2 h1 h2
        have hatt : r.attempts = [a1.1, a2.1] := by
          unfold WiFiBeginResult.attempts
          rw [hc, List.append_assoc, WiFiNINANetworkHub.attempts_base]
          simp [WiFiCall.attempt]
        refine ⟨?_, ?_, ?_, ?_, ?_, ?_, ?_⟩
        · rw [hatt, if_neg hm, if_neg h1, if_pos h2]
        · rw [hatt]; simp
        · rw [hs, hatt]; simp [hm, h2]
        · intro i hi
          rw [hatt] at hi ⊢
          rcases i with _ | _ | i
          · simp at hi; exact absurd hi h1
          · rfl
          · simp at hi
        · exact fun h => absurd h hm
        · exact fun _ _ h => absurd h2 h
        · intro h; rw [hs] at h; exact absurd h (by simp)
      · by_cases h3 : a3.1 = wifi.WL_CONNECTED
        · obtain ⟨hs, _, hc, _⟩ := c3 h1 h2 h3
          have hatt : r.attempts = [a1.1, a2.1, a3.1] := by
            unfold WiFiBeginResult.attempts
            rw [hc, List.append_assoc, WiFiNINANetworkHub.attempts_base]
            simp [WiFiCall.attempt]
          refine ⟨?_, ?_, ?_, ?_, ?_, ?_, ?_⟩
          · rw [hatt, if_neg hm, if_neg h1, if_neg h2]
          · rw [hatt]; simp
          · rw [hs, hatt]; simp [hm, h3]
          · intro i hi
            rw [hatt] at hi ⊢
            rcases i with _ | _ | _ | i
            · simp at hi; exact absurd hi h1
            · simp at hi; exact absurd hi h2
            · rfl
            · simp at hi
          · exact fun h => absurd h hm
          · exact fun _ _ _ h => absurd h3 h
          · intro h; rw [hs] at h; exact absurd h (by simp)
        · obtain ⟨hs, _, hc, hp⟩ := c4 h1 h2 h3
          have hatt : r.attempts = [a1.1, a2.1, a3.1] := by
            unfold WiFiBeginResult.attempts
            rw [hc, List.append_assoc, WiFiNINANetworkHub.attempts_base]
            simp [WiFiCall.attempt]
          refine ⟨?_, ?_, ?_, ?_, ?_, ?_, ?_⟩
          · rw [hatt, if_neg hm, if_neg h1, if_neg h2]
          · rw [hatt]; simp
          · rw [hs, hatt]
            simp only [List.mem_cons, List.mem_singleton, List.not_mem_nil, or_false]
            constructor
            · intro h; exact absurd h (by simp)
            · rintro ⟨_, h | h | h⟩
              · exact absurd h.symm h1
              · exact absurd h.symm h2
              · exact absurd h.symm h3
          · intro i hi
            rw [hatt] at hi
            rcases i with _ | _ | _ | i
            · simp at hi; exact absurd hi h1
            · simp at hi; exact absurd hi h2
            · simp at hi; exact absurd hi h3
            · simp at hi
          · exact fun h => absurd h hm
          · exact fun _ _ _ _ => ⟨hs, hp⟩
          · exact fun _ => Or.inr hp

/-- Witness of C9 on the sample vendor: module present, the first attempt returns `4`, the
second `3` (`WL_CONNECTED`): two attempts are made and `begin` returns `true`. -/
theorem WiFiNINANetworkHub.begin_attempts_witness :
    (WiFiNINANetworkHub.begin radioWiFi dhcpHub "net" "secret" ⟨0, [4, 3, 3]⟩ []).attempts
      = [4, 3] ∧
    (WiFiNINANetworkHub.begin radioWiFi dhcpHub "net" "secret" ⟨0, [4, 3, 3]⟩ []).success
      = true := by
  have T := WiFiNINANetworkHub.begin_attempts radioWiFi dhcpHub "net" "secret"
    ⟨0, [4, 3, 3]⟩ [] (by decide)
  refine ⟨T.1.trans (by decide), ?_⟩
  rw [T.2.2.1, T.1]
  decide

/-! ## Calling `begin()` again (C10) -/

theorem WiFiNINANetworkHub.connectLoop_hub {G : Type} (wifi : WiFiClass G) (hub : NetworkHub)
    (ssid password : String) (attemptsLeft : Nat) :
    ∀ (status : Int) (g : G) (printer : List Printed) (calls : List WiFiCall),
      (WiFiNINANetworkHub.connectLoop wifi hub ssid password attemptsLeft status g printer
        calls).hub = hub := by
  induction attemptsLeft with
  | zero =>
    intro status g printer calls
    by_cases hs : status = wifi.WL_CONNECTED
    · rw [hs, WiFiNINANetworkHub.connectLoop_connected]
    · rw [WiFiNINANetworkHub.connectLoop_exhausted wifi hub ssid password hs]
  | succ n ih =>
    intro status g printer calls
    by_cases hs : status = wifi.WL_CONNECTED
    · rw [hs, WiFiNINANetworkHub.connectLoop_connected]
    · rw [WiFiNINANetworkHub.connectLoop_attempt wifi hub ssid password n hs]
      exact ih _ _ _ _

/-- The wireless `begin` returns the hub object it was called on. -/
theorem WiFiNINANetworkHub.begin_hub {G : Type} (wifi : WiFiClass G) (hub : NetworkHub)
    (ssid password : String) (g : G) (printer : List Printed) :
    (WiFiNINANetworkHub.begin wifi hub ssid password g printer).hub = hub := by
  obtain ⟨habsent, hpresent⟩ := WiFiNINANetworkHub.begin_split wifi hub ssid password g printer
  by_cases hm : (wifi.status (wifi.firmwareVersion g).2).1 = wifi.WL_NO_MODULE
  · rw [habsent hm]
  · rw [hpresent hm]
    exact WiFiNINANetworkHub.connectLoop_hub wifi hub ssid password 3 _ _ _ _

/-- When the wireless `begin` returns `true`, by the module status and the statuses a first,
second and third association attempt return. -/
theorem WiFiNINANetworkHub.begin_success_iff {G : Type} (wifi : WiFiClass G) (hub : NetworkHub)
    (ssid password : String) (g : G) (printer : List Printed)
    (hidle : wifi.WL_IDLE_STATUS ≠ wifi.WL_CONNECTED) :
    let st := wifi.status (wifi.firmwareVersion g).2
    let g0 := if hub.hasConfiguredLocalIPAddress then
        wifi.config st.2 hub.configuredLocalIPAddress hub.configuredDNSIPAddress
          hub.configuredGatewayIPAddress hub.configuredSubnetMask
      else st.2
    let a1 := wifi.begin g0 ssid password
    let a2 := wifi.begin (wifi.delay a1.2 10000) ssid password
    let a3 := wifi.begin (wifi.delay a2.2 10000) ssid password
    let r := WiFiNINANetworkHub.begin wifi hub ssid password g printer
    (r.success = true ↔
      st.1 ≠ wifi.WL_NO_MODULE ∧
      (a1.1 = wifi.WL_CONNECTED ∨ a2.1 = wifi.WL_CONNECTED ∨ a3.1 = wifi.WL_CONNECTED)) ∧
    (r.attempts.length ≤ 3) := by
  intro st g0 a1 a2 a3 r
  obtain ⟨habsent, hpresent⟩ := WiFiNINANetworkHub.begin_split wifi hub ssid password g printer
  by_cases hm : st.1 = wifi.WL_NO_MODULE
  · have hr : r = _ := habsent hm
    constructor
    · rw [hr]; simp [hm]
    · rw [hr]; simp [WiFiBeginResult.attempts, WiFiCall.attempt]
  · have hr : r = _ := hpresent hm
    obtain ⟨_, c1, c2, c3, c4⟩ := WiFiNINANetworkHub.connectLoop_three wifi hub ssid password
      hidle g0 (printer ++ [Printed.text "Found firmware ",
        Printed.line (wifi.firmwareVersion g).1])
      ((if hub.hasConfiguredLocalIPAddress then
          [WiFiCall.firmwareVersion, WiFiCall.status,
            WiFiCall.config hub.configuredLocalIPAddress hub.configuredDNSIPAddress
              hub.configuredGatewayIPAddress hub.configuredSubnetMask]
        else [WiFiCall.firmwareVersion, WiFiCall.status]) ++ [])
    rw [← hr] at c1 c2 c3 c4
    have hlen : ∀ l, r.calls = ((if hub.hasConfiguredLocalIPAddress then
          [WiFiCall.firmwareVersion, WiFiCall.status,
            WiFiCall.config hub.configuredLocalIPAddress hub.configuredDNSIPAddress
              hub.configuredGatewayIPAddress hub.configuredSubnetMask]
        else [WiFiCall.firmwareVersion, WiFiCall.status]) ++ []) ++ l →
        r.attempts = List.filterMap WiFiCall.attempt l := by
      intro l hl
      unfold WiFiBeginResult.attempts
      rw [hl, List.append_assoc, WiFiNINANetworkHub.attempts_base]
      rfl
    by_cases h1 : a1.1 = wifi.WL_CONNECTED
    · obtain ⟨hs, _, hc, _⟩ := c1 h1
      exact ⟨by rw [hs]; simp [hm, h1], by rw [hlen _ hc]; simp [WiFiCall.attempt]⟩
    · by_cases h2 : a2.1 = wifi.WL_CONNECTED
      · obtain ⟨hs, _, hc, _⟩ := c2 h1 h2
        exact ⟨by rw [hs]; simp [hm, h2], by rw [hlen _ hc]; simp [WiFiCall.attempt]⟩
      · by_cases h3 : a3.1 = wifi.WL_CONNECTED
        · obtain ⟨hs, _, hc, _⟩ := c3 h1 h2 h3
          exact ⟨by rw [hs]; simp [hm, h3], by rw [hlen _ hc]; simp [WiFiCall.attempt]⟩
        · obtain ⟨hs, _, hc, _⟩ := c4 h1 h2 h3
          exact ⟨by rw [hs]; simp [h1, h2, h3], by rw [hlen _ hc]; simp [WiFiCall.attempt]⟩

/-- C10: a `begin()` does not wedge the hub. Each `begin` returns the hub object unchanged, so a
second `begin` on it is the `begin` of the same configuration on the vendor stack the first one
left behind. Wired: it returns `true` exactly when the DHCP start (if used) does not report
`0`, the hardware is present and the link is not off, all as the vendor reports them during the
second call. Wireless (for status codes with `WL_IDLE_STATUS ≠ WL_CONNECTED`): it makes at most
three fresh association attempts and returns `true` exactly when the module is then present and
one of the three statuses the vendor then returns is `WL_CONNECTED`. Neither depends on how the
first `begin` ended. -/
theorem NetworkHub.begin_again {G H : Type} (eth : EthernetClass G) (wifi : WiFiClass H)
    (hub : NetworkHub) (mac1 mac2 : List Nat) (g : G) (ssid1 password1 ssid2 password2 : String)
    (h : H) (printerE printerW : List Printed)
    (hidle : wifi.WL_IDLE_STATUS ≠ wifi.WL_CONNECTED) :
    (let r1 := EthernetNetworkHub.begin eth hub mac1 g printerE
     let r2 := EthernetNetworkHub.begin eth r1.hub mac2 r1.stack r1.printed
     let dhcp := eth.beginDHCP r1.stack mac2
     let g1 := if hub.hasConfiguredLocalIPAddress then
         eth.beginStatic r1.stack mac2 hub.configuredLocalIPAddress hub.configuredDNSIPAddress
           hub.configuredGatewayIPAddress hub.configuredSubnetMask
       else dhcp.2
     let hw := eth.hardwareStatus g1
     let link := eth.linkStatus hw.2
     r1.hub = hub ∧ r2.hub = hub ∧
     (r2.success = true ↔
       ¬ (hub.hasConfiguredLocalIPAddress = false ∧ dhcp.1 = 0) ∧
       hw.1 ≠ EthernetHardwareStatus.EthernetNoHardware ∧
       link.1 ≠ EthernetLinkStatus.LinkOFF)) ∧
    (let r1 := WiFiNINANetworkHub.begin wifi hub ssid1 password1 h printerW
     let r2 := WiFiNINANetworkHub.begin wifi r1.hub ssid2 password2 r1.stack r1.printed
     let st := wifi.status (wifi.firmwareVersion r1.stack).2
     let g0 := if hub.hasConfiguredLocalIPAddress then
         wifi.config st.2 hub.configuredLocalIPAddress hub.configuredDNSIPAddress
           hub.configuredGatewayIPAddress hub.configuredSubnetMask
       else st.2
     let a1 := wifi.begin g0 ssid2 password2
     let a2 := wifi.begin (wifi.delay a1.2 10000) ssid2 password2
     let a3 := wifi.begin (wifi.delay a2.2 10000) ssid2 password2
     r1.hub = hub ∧ r2.hub = hub ∧ r2.attempts.length ≤ 3 ∧
     (r2.success = true ↔
       st.1 ≠ wifi.WL_NO_MODULE ∧
       (a1.1 = wifi.WL_CONNECTED ∨ a2.1 = wifi.WL_CONNECTED ∨ a3.1 = wifi.WL_CONNECTED))) := by
  constructor
  · intro r1 r2 dhcp g1 hw link
    have hh : r1.hub = hub := rfl
    refine ⟨hh, rfl, ?_⟩
    have e := EthernetNetworkHub.begin_eq eth hub mac2 r1.stack r1.printed
    simp only [] at e
    have hr2 : r2 = _ := e
    rw [hr2]
    cases hc : hub.hasConfiguredLocalIPAddress
    · simp [hc, dhcp, g1, hw, link]
      tauto
    · simp [hc, g1, hw, link]
  · intro r1 r2 st g0 a1 a2 a3
    have hh : r1.hub = hub := WiFiNINANetworkHub.begin_hub wifi hub ssid1 password1 h printerW
    have hr2 : r2 = WiFiNINANetworkHub.begin wifi hub ssid2 password2 r1.stack r1.printed := by
      show WiFiNINANetworkHub.begin wifi r1.hub ssid2 password2 r1.stack r1.printed = _
      rw [hh]
    have T := WiFiNINANetworkHub.begin_success_iff wifi hub ssid2 password2 r1.stack r1.printed
      hidle
    simp only [] at T
    refine ⟨hh, ?_, ?_, ?_⟩
    · rw [hr2]
      exact WiFiNINANetworkHub.begin_hub wifi hub ssid2 password2 r1.stack r1.printed
    · rw [hr2]
      exact T.2
    · rw [hr2]
      exact T.1

/-- Witness of C10 on the sample vendors. Wired: the first DHCP start reports `0` and `begin`
returns `false`; the second `begin` returns `true`. Wireless: the first `begin` uses up its
three attempts and returns `false`; the second makes two fresh attempts and returns `true`. -/
theorem NetworkHub.begin_again_witness :
    (EthernetNetworkHub.begin wiredEthernet dhcpHub [222, 173, 190, 239, 254, 237]
        ⟨0, .EthernetW5500, .LinkON, IPAddress.zero⟩ []).success = false ∧
    (EthernetNetworkHub.begin wiredEthernet
        (EthernetNetworkHub.begin wiredEthernet dhcpHub [222, 173, 190, 239, 254, 237]
          ⟨0, .EthernetW5500, .LinkON, IPAddress.zero⟩ []).hub
        [222, 173, 190, 239, 254, 237]
        (EthernetNetworkHub.begin wiredEthernet dhcpHub [222, 173, 190, 239, 254, 237]
          ⟨0, .EthernetW5500, .LinkON, IPAddress.zero⟩ []).stack
        (EthernetNetworkHub.begin wiredEthernet dhcpHub [222, 173, 190, 239, 254, 237]
          ⟨0, .EthernetW5500, .LinkON, IPAddress.zero⟩ []).printed).success = true ∧
    (WiFiNINANetworkHub.begin radioWiFi dhcpHub "net" "secret"
        ⟨0, [4, 4, 4, 4, 3]⟩ []).success = false ∧
    (WiFiNINANetworkHub.begin radioWiFi
        (WiFiNINANetworkHub.begin radioWiFi dhcpHub "net" "secret" ⟨0, [4, 4, 4, 4, 3]⟩ []).hub
        "net" "secret"
        (WiFiNINANetworkHub.begin radioWiFi dhcpHub "net" "secret"
          ⟨0, [4, 4, 4, 4, 3]⟩ []).stack
        (WiFiNINANetworkHub.begin radioWiFi dhcpHub "net" "secret"
          ⟨0, [4, 4, 4, 4, 3]⟩ []).printed).success = true := by
  have T := NetworkHub.begin_again wiredEthernet radioWiFi dhcpHub
    [222, 173, 190, 239, 254, 237] [222, 173, 190, 239, 254, 237]
    ⟨0, .EthernetW5500, .LinkON, IPAddress.zero⟩ "net" "secret" "net" "secret"
    ⟨0, [4, 4, 4, 4, 3]⟩ [] [] (by decide)
  refine ⟨by decide, T.1.2.2.mpr (by decide), by decide, T.2.2.2.2.mpr (by decide)⟩

/-! ## Hub singletons (C11) -/

theorem HubMemory.set_second_last {α : Type} (l : List α) (a b c : α) :
    (l ++ [a, b]).set (l.length + 1) c = l ++ [a, c] := by
  induction l with
  | nil => rfl
  | cons x xs ih => simp [ih]

theorem HubMemory.deref_first_added (objs rest : List HubObject) (a : HubObject) (pE pW : Nat) :
    HubMemory.deref ⟨objs ++ a :: rest, pE, pW⟩ (objs.length + 1) = some a := by
  unfold HubMemory.deref
  rw [if_neg (by omega)]
  show (objs ++ a :: rest)[objs.length]? = some a
  rw [List.getElem?_append_right (le_refl _)]
  simp

theorem HubMemory.deref_second_added (objs rest : List HubObject) (a b : HubObject)
    (pE pW : Nat) :
    HubMemory.deref ⟨objs ++ a :: b :: rest, pE, pW⟩ (objs.length + 2) = some b := by
  unfold HubMemory.deref
  rw [if_neg (by omega)]
  show (objs ++ a :: b :: rest)[objs.length + 1]? = some b
  rw [List.getElem?_append_right (by omega)]
  simp

theorem HubMemory.deref_third_added (objs rest : List HubObject) (a b c : HubObject)
    (pE pW : Nat) :
    HubMemory.deref ⟨objs ++ a :: b :: c :: rest, pE, pW⟩ (objs.length + 3) = some c := by
  unfold HubMemory.deref
  rw [if_neg (by omega)]
  show (objs ++ a :: b :: c :: rest)[objs.length + 2]? = some c
  rw [List.getElem?_append_right (by omega)]
  simp

theorem EthernetNetworkHub.getInstance_creates_wired (fresh : NetworkHub) (m : HubMemory)
    (h0 : m._ethernetNetworkHub = 0) :
    EthernetNetworkHub.getInstance fresh m =
      some (m.objects.length + 2,
        { m with
          objects := m.objects ++ [⟨HubClass.EthernetNetworkHub, HubStorage.heap, fresh⟩,
            ⟨HubClass.EthernetNetworkHub, HubStorage.returned, fresh⟩]
          _ethernetNetworkHub := m.objects.length + 1 }) := by
  simp [EthernetNetworkHub.getInstance, HubMemory.add, HubMemory.deref, h0]

theorem EthernetNetworkHub.getInstance_reuses_wired (fresh : NetworkHub) (m : HubMemory)
    (o : HubObject)
    (ho : m.deref m._ethernetNetworkHub = some o) :
    EthernetNetworkHub.getInstance fresh m =
      some (m.objects.length + 1,
        { m with objects := m.objects ++ [{ o with storage := HubStorage.returned }] }) := by
  have hp : m._ethernetNetworkHub ≠ 0 := by
    intro h
    simp [HubMemory.deref, h] at ho
  simp [EthernetNetworkHub.getInstance, HubMemory.add, hp, ho]

theorem WiFiNINANetworkHub.getInstance_creates_wireless (fresh : NetworkHub) (m : HubMemory)
    (h0 : m._wifiNetworkHub = 0) :
    WiFiNINANetworkHub.getInstance fresh m =
      some (m.objects.length + 2,
        { m with
          objects := m.objects ++ [⟨HubClass.WiFiNINANetworkHub, HubStorage.heap, fresh⟩,
            ⟨HubClass.WiFiNINANetworkHub, HubStorage.returned, fresh⟩]
          _wifiNetworkHub := m.objects.length + 1 }) := by
  simp [WiFiNINANetworkHub.getInstance, HubMemory.add, HubMemory.deref, h0]

theorem WiFiNINANetworkHub.getInstance_reuses_wireless (fresh : NetworkHub) (m : HubMemory)
    (o : HubObject)
    (ho : m.deref m._wifiNetworkHub = some o) :
    WiFiNINANetworkHub.getInstance fresh m =
      some (m.objects.length + 1,
        { m with objects := m.objects ++ [{ o with storage := HubStorage.returned }] }) := by
  have hp : m._wifiNetworkHub ≠ 0 := by
    intro h
    simp [HubMemory.deref, h] at ho
  simp [WiFiNINANetworkHub.getInstance, HubMemory.add, hp, ho]

/-- C11: `getInstance()` of either hub, called before the hub exists, then a change `f` of the
members made through the returned object, then `getInstance()` again. The first call creates
the one hub object with `new` and sets the static pointer; the second call creates no other and
leaves the pointer as it is. But each call hands the caller a new object, copy-constructed from
the one the static pointer points to: the two returned objects differ from each other and from
the pointed-to object, the change `f` is made in the first returned object alone, and the
pointed-to object and the second returned object have the members of a new hub, without the
change. -/
theorem NetworkHub.getInstance_returns_copy (fresh : NetworkHub) (m : HubMemory)
    (f : NetworkHub → NetworkHub) :
    (m._ethernetNetworkHub = 0 →
      ∃ a1 m1 m1c a2 m2,
        EthernetNetworkHub.getInstance fresh m = some (a1, m1) ∧
        m1.update a1 f = some m1c ∧
        EthernetNetworkHub.getInstance fresh m1c = some (a2, m2) ∧
        m1._ethernetNetworkHub = m.objects.length + 1 ∧
        m1.created HubClass.EthernetNetworkHub = m.created HubClass.EthernetNetworkHub + 1 ∧
        m2._ethernetNetworkHub = m1._ethernetNetworkHub ∧
        m2.created HubClass.EthernetNetworkHub = m1.created HubClass.EthernetNetworkHub ∧
        a1 ≠ m1._ethernetNetworkHub ∧ a2 ≠ m1._ethernetNetworkHub ∧ a1 ≠ a2 ∧
        m2.deref m2._ethernetNetworkHub
          = some ⟨HubClass.EthernetNetworkHub, HubStorage.heap, fresh⟩ ∧
        m2.deref a1 = some ⟨HubClass.EthernetNetworkHub, HubStorage.returned, f fresh⟩ ∧
        m2.deref a2 = some ⟨HubClass.EthernetNetworkHub, HubStorage.returned, fresh⟩) ∧
    (m._wifiNetworkHub = 0 →
      ∃ a1 m1 m1c a2 m2,
        WiFiNINANetworkHub.getInstance fresh m = some (a1, m1) ∧
        m1.update a1 f = some m1c ∧
        WiFiNINANetworkHub.getInstance fresh m1c = some (a2, m2) ∧
        m1._wifiNetworkHub = m.objects.length + 1 ∧
        m1.created HubClass.WiFiNINANetworkHub = m.created HubClass.WiFiNINANetworkHub + 1 ∧
        m2._wifiNetworkHub = m1._wifiNetworkHub ∧
        m2.created HubClass.WiFiNINANetworkHub = m1.created HubClass.WiFiNINANetworkHub ∧
        a1 ≠ m1._wifiNetworkHub ∧ a2 ≠ m1._wifiNetworkHub ∧ a1 ≠ a2 ∧
        m2.deref m2._wifiNetworkHub
          = some ⟨HubClass.WiFiNINANetworkHub, HubStorage.heap, fresh⟩ ∧
        m2.deref a1 = some ⟨HubClass.WiFiNINANetworkHub, HubStorage.returned, f fresh⟩ ∧
        m2.deref a2 = some ⟨HubClass.WiFiNINANetworkHub, HubStorage.returned, fresh⟩) := by
  constructor
  · intro h0
    have e1 := EthernetNetworkHub.getInstance_creates_wired fresh m h0
    have eu : HubMemory.update
        { m with
          objects := m.objects ++ [⟨HubClass.EthernetNetworkHub, HubStorage.heap, fresh⟩,
            ⟨HubClass.EthernetNetworkHub, HubStorage.returned, fresh⟩]
          _ethernetNetworkHub := m.objects.length + 1 } (m.objects.length + 2) f =
        some { m with
          objects := m.objects ++ [⟨HubClass.EthernetNetworkHub, HubStorage.heap, fresh⟩,
            ⟨HubClass.EthernetNetworkHub, HubStorage.returned, f fresh⟩]
          _ethernetNetworkHub := m.objects.length + 1 } := by
      unfold HubMemory.update
      rw [HubMemory.deref_second_added]
      show some (HubMemory.mk ((m.objects ++ [_, _]).set (m.objects.length + 1) _) _ _) = _
      rw [HubMemory.set_second_last]
    have e2 := EthernetNetworkHub.getInstance_reuses_wired fresh
      { m with
        objects := m.objects ++ [⟨HubClass.EthernetNetworkHub, HubStorage.heap, fresh⟩,
          ⟨HubClass.EthernetNetworkHub, HubStorage.returned, f fresh⟩]
        _ethernetNetworkHub := m.objects.length + 1 }
      ⟨HubClass.EthernetNetworkHub, HubStorage.heap, fresh⟩
      (HubMemory.deref_first_added _ _ _ _ _)
    refine ⟨_, _, _, _, _, e1, eu, e2, rfl, ?_, rfl, ?_, ?_, ?_, ?_, ?_, ?_, ?_⟩
    · simp [HubMemory.created, List.filter_append]
    · simp [HubMemory.created, List.filter_append]
    · simp
    · simp
    · simp
    · simp [HubMemory.deref_first_added]
    · simp [HubMemory.deref_second_added]
    · have h := HubMemory.deref_third_added m.objects []
        (HubObject.mk HubClass.EthernetNetworkHub HubStorage.heap fresh)
        (HubObject.mk HubClass.EthernetNetworkHub HubStorage.returned (f fresh))
        (HubObject.mk HubClass.EthernetNetworkHub HubStorage.returned fresh)
        (m.objects.length + 1) m._wifiNetworkHub
      simpa using h
  · intro h0
    have e1 := WiFiNINANetworkHub.getInstance_creates_wireless fresh m h0
    have eu : HubMemory.update
        { m with
          objects := m.objects ++ [⟨HubClass.WiFiNINANetworkHub, HubStorage.heap, fresh⟩,
            ⟨HubClass.WiFiNINANetworkHub, HubStorage.returned, fresh⟩]
          _wifiNetworkHub := m.objects.length + 1 } (m.objects.length + 2) f =
        some { m with
          objects := m.objects ++ [⟨HubClass.WiFiNINANetworkHub, HubStorage.heap, fresh⟩,
            ⟨HubClass.WiFiNINANetworkHub, HubStorage.returned, f fresh⟩]
          _wifiNetworkHub := m.objects.length + 1 } := by
      unfold HubMemory.update
      rw [HubMemory.deref_second_added]
      show some (HubMemory.mk ((m.objects ++ [_, _]).set (m.objects.length + 1) _) _ _) = _
      rw [HubMemory.set_second_last]
    have e2 := WiFiNINANetworkHub.getInstance_reuses_wireless fresh
      { m with
        objects := m.objects ++ [⟨HubClass.WiFiNINANetworkHub, HubStorage.heap, fresh⟩,
          ⟨HubClass.WiFiNINANetworkHub, HubStorage.returned, f fresh⟩]
        _wifiNetworkHub := m.objects.length + 1 }
      ⟨HubClass.WiFiNINANetworkHub, HubStorage.heap, fresh⟩
      (HubMemory.deref_first_added _ _ _ _ _)
    refine ⟨_, _, _, _, _, e1, eu, e2, rfl, ?_, rfl, ?_, ?_, ?_, ?_, ?_, ?_, ?_⟩
    · simp [HubMemory.created, List.filter_append]
    · simp [HubMemory.created, List.filter_append]
    · simp
    · simp
    · simp
    · simp [HubMemory.deref_first_added]
    · simp [HubMemory.deref_second_added]
    · have h := HubMemory.deref_third_added m.objects []
        (HubObject.mk HubClass.WiFiNINANetworkHub HubStorage.heap fresh)
        (HubObject.mk HubClass.WiFiNINANetworkHub HubStorage.returned (f fresh))
        (HubObject.mk HubClass.WiFiNINANetworkHub HubStorage.returned fresh)
        m._ethernetNetworkHub (m.objects.length + 1)
      simpa using h

/-- Witness of C11 at program start, with a new hub that has no static address and the change
`setHostIPAddress(192.168.1.20)` made through the first returned object: the first returned
object has a fixed local address configured, the object returned by the second `getInstance()`
has none. -/
theorem NetworkHub.getInstance_returns_copy_witness :
    (∃ a1 m1 m1c a2 m2,
      EthernetNetworkHub.getInstance dhcpHub HubMemory.start = some (a1, m1) ∧
      m1.setHostIPAddress a1 ⟨192, 168, 1, 20⟩ = some m1c ∧
      EthernetNetworkHub.getInstance dhcpHub m1c = some (a2, m2) ∧
      a1 ≠ a2 ∧
      (m2.deref a1).map (fun o => o.members.hasConfiguredLocalIPAddress) = some true ∧
      (m2.deref a2).map (fun o => o.members.hasConfiguredLocalIPAddress) = some false) ∧
    (∃ a1 m1 m1c a2 m2,
      WiFiNINANetworkHub.getInstance dhcpHub HubMemory.start = some (a1, m1) ∧
      m1.setHostIPAddress a1 ⟨192, 168, 1, 20⟩ = some m1c ∧
      WiFiNINANetworkHub.getInstance dhcpHub m1c = some (a2, m2) ∧
      a1 ≠ a2 ∧
      (m2.deref a1).map (fun o => o.members.hasConfiguredLocalIPAddress) = some true ∧
      (m2.deref a2).map (fun o => o.members.hasConfiguredLocalIPAddress) = some false) := by
  have T := NetworkHub.getInstance_returns_copy dhcpHub HubMemory.start
    (fun hub => hub.setHostIPAddress ⟨192, 168, 1, 20⟩)
  constructor
  · obtain ⟨a1, m1, m1c, a2, m2, e1, eu, e2, _, _, _, _, _, _, hne, _, d1, d2⟩ := T.1 rfl
    refine ⟨a1, m1, m1c, a2, m2, e1, eu, e2, hne, ?_, ?_⟩
    · rw [d1]; rfl
    · rw [d2]; rfl
  · obtain ⟨a1, m1, m1c, a2, m2, e1, eu, e2, _, _, _, _, _, _, hne, _, d1, d2⟩ := T.2 rfl
    refine ⟨a1, m1, m1c, a2, m2, e1, eu, e2, hne, ?_, ?_⟩
    · rw [d1]; rfl
    · rw [d2]; rfl

end WiFiNetworkHub
